import Mathlib

/-!
Verification development for an insurance-fraud graph system consisting of a
synthetic data generator (`data_generator.py`) and a detection engine
(`fraud_detection.py`) over a property graph.

The property graph is embedded shallowly: nodes carry the properties that the
detection engine and the claims read (internal node id `nid`, labels, the
business `id` property `pid`, `claim_amount`, `claim_type`, `is_fraud`,
`fraud_type`, and the mutable suspicion annotations).  Properties that no
algorithm in scope reads (names, ssn, phone, license, bar_number, employee_id,
claim_date, incident_type, provenance markers) are omitted from the record;
they never influence control flow in the detection engine.

Conventions:
- Cypher `x.is_fraud IS NULL OR x.is_fraud = false` becomes
  `n.is_fraud = none or n.is_fraud = some false`.
- Cypher `c.is_fraud = false` (which filters out nodes where the property is
  absent, since `null = false` is not true) becomes `n.is_fraud = some false`.
- Currency amounts are rationals; Python `int(x)` is truncation toward zero.
- `id(n)` (the Neo4j internal id) is the `nid` field, allocated monotonically.
- Python `f"PFX_source.counter:05d"` string ids are modelled as the prefix
  concatenated with the decimal counter; zero padding only affects display,
  never equality or control flow, because counters and ids are never parsed.
-/

/-- A property-graph node, carrying exactly the properties that the fraud
    detection engine reads or writes. -/
structure GNode where
  nid : Nat
  labels : List String
  pid : String
  claim_amount : ℚ := 0
  claim_type : String := ""
  is_fraud : Option Bool := none
  fraud_type : Option String := none
  suspicious : Option Bool := none
  suspicion_type : Option String := none
  suspicion_score : Option ℤ := none
  degree_centrality : Option ℤ := none
  deriving Repr, DecidableEq

/-- A directed typed relationship; `shared_claims` is the property carried by
    `SUSPICIOUS_RELATIONSHIP` edges written by the two-entity detectors. -/
structure GEdge where
  src : Nat
  dst : Nat
  rtype : String
  shared_claims : Option Nat := none
  deriving Repr, DecidableEq

/-- The property graph: the single shared mutable store. -/
structure Graph where
  nodes : List GNode
  edges : List GEdge
  deriving Repr, DecidableEq

def Graph.empty : Graph := ⟨[], []⟩

def hasLabel (n : GNode) (l : String) : Bool := n.labels.contains l

/-- Cypher guard `x.is_fraud IS NULL OR x.is_fraud = false`, used by every
    detector for non-Claim entities. -/
def notFraudB (n : GNode) : Bool := n.is_fraud == none || n.is_fraud == some false

/-- Cypher guard `c.is_fraud = false`, used by every detector for Claims. -/
def unlabeledClaimB (n : GNode) : Bool := n.is_fraud == some false

def nodeAt (g : Graph) (i : Nat) : Option GNode := g.nodes.find? (fun n => n.nid == i)

/-- Update every node of the graph through `f` when `p` holds (the shape of all
    Cypher `MATCH ... WHERE ... SET ...` node mutations in the engine). -/
def condMap (p : GNode → Bool) (f : GNode → GNode) (g : Graph) : Graph :=
  { g with nodes := g.nodes.map (fun n => if p n then f n else n) }

/-- First-occurrence deduplication, the order `collect(DISTINCT x)` produces. -/
def firstDedup {α : Type} [BEq α] (l : List α) : List α :=
  l.foldl (fun acc a => if acc.contains a then acc else acc ++ [a]) []

/-- Group a row list by a key, in first-occurrence key order (the grouping
    Cypher `WITH k, collect(v)` performs); every group is nonempty. -/
def groupRows {κ α : Type} [BEq κ] (key : α → κ) (rows : List α) : List (List α) :=
  (firstDedup (rows.map key)).map (fun k => rows.filter (fun r => key r == k))

/-- Stable insertion used by `sortByB`. -/
def insertByB {α : Type} (le : α → α → Bool) (a : α) : List α → List α
  | [] => [a]
  | b :: l => if le a b then a :: b :: l else b :: insertByB le a l

/-- Stable insertion sort, modelling Cypher `ORDER BY`. -/
def sortByB {α : Type} (le : α → α → Bool) (l : List α) : List α :=
  l.foldr (insertByB le) []

/-- Python `int(q)`: truncation toward zero. -/
def pyTrunc (q : ℚ) : ℤ := if 0 ≤ q then ⌊q⌋ else ⌈q⌉

/-- Secondary score propagated onto associated claims:
    `toInteger(score * 0.8)`.  For the integer scores the engine produces
    (all in `[0, 100]`) the binary64 product `score * 0.8` truncates to
    `(score * 4) / 5` rounded toward zero, which is what we compute. -/
def propScore (s : ℤ) : ℤ := pyTrunc ((s * 4 : ℚ) / 5)

/-! ## clear_previous_detections (fraud_detection.py lines 32-68) -/

/-- Counts returned by `clear_previous_detections`: flagged entities cleared,
    nodes with centrality removed, SUSPICIOUS_RELATIONSHIP edges deleted. -/
structure ClearCounts where
  flagged : Nat
  centrality : Nat
  rels : Nat
  deriving Repr, DecidableEq

/-- Model of `clear_previous_detections`: removes `suspicious`, `suspicion_type`,
    `suspicion_score` from nodes with `suspicious = true`; removes
    `degree_centrality` wherever present; deletes all SUSPICIOUS_RELATIONSHIP
    edges.  Returns the three affected counts with the new graph. -/
def clearPreviousDetections (g : Graph) : ClearCounts × Graph :=
  let flaggedP : GNode → Bool := fun n => n.suspicious == some true
  let flagged := (g.nodes.filter flaggedP).length
  let g1 := condMap flaggedP
    (fun n => { n with suspicious := none, suspicion_type := none, suspicion_score := none }) g
  let centP : GNode → Bool := fun n => !(n.degree_centrality == none)
  let cent := (g1.nodes.filter centP).length
  let g2 := condMap centP (fun n => { n with degree_centrality := none }) g1
  let suspE : GEdge → Bool := fun e => e.rtype == "SUSPICIOUS_RELATIONSHIP"
  let rels := (g2.edges.filter suspE).length
  let g3 := { g2 with edges := g2.edges.filter (fun e => !(suspE e)) }
  (⟨flagged, cent, rels⟩, g3)

/-! ## Generator state (data_generator.py)

`FraudDataGenerator.__init__` (lines 39-53) zeroes six per-category counters
and four entity pools.  `nextNid` models the store-internal node id allocator
(`id(n)` in queries), which is independent of the Python counters. -/

structure GenState where
  claim_counter : Nat := 0
  person_counter : Nat := 0
  provider_counter : Nat := 0
  attorney_counter : Nat := 0
  bodyshop_counter : Nat := 0
  adjuster_counter : Nat := 0
  adjuster_pool : List String := []
  medical_provider_pool : List String := []
  attorney_pool : List String := []
  bodyshop_pool : List String := []
  graph : Graph := Graph.empty
  nextNid : Nat := 0
  deriving Repr, DecidableEq

def initGenState : GenState := {}

/-- Append one freshly created node to the store, consuming an internal id. -/
def addNode (s : GenState) (mk : Nat → GNode) : GenState :=
  { s with graph := { s.graph with nodes := s.graph.nodes ++ [mk s.nextNid] },
           nextNid := s.nextNid + 1 }

/-- Append one relationship between two existing nodes, looked up by business
    id (the `MATCH ... CREATE (a)-[:T]->(b)` shape); if either endpoint is
    missing the MATCH finds nothing and no edge is created. -/
def addEdgeByPid (s : GenState) (srcPid dstPid rtype : String) : GenState :=
  match s.graph.nodes.find? (fun n => n.pid == srcPid),
        s.graph.nodes.find? (fun n => n.pid == dstPid) with
  | some a, some b =>
      { s with graph := { s.graph with edges := s.graph.edges ++ [⟨a.nid, b.nid, rtype, none⟩] } }
  | _, _ => s

/-- Model of `clear_database` (lines 80-84): `MATCH (n) DETACH DELETE n` — it deletes
    every node and relationship and nothing else; in particular it does not
    touch the Python-side counters or pools. -/
def clearDatabase (s : GenState) : GenState := { s with graph := Graph.empty }

def idStr (prefx : String) (n : Nat) : String := prefx ++ toString n

/-- Adjuster node created by `create_adjuster_pool` (lines 112-118). -/
def mkAdjusterNode (nid : Nat) (pid : String) : GNode :=
  { nid := nid, labels := ["Person", "Adjuster"], pid := pid }

/-- Model of `create_adjuster_pool(num_adjusters)` (lines 103-128): creates `num`
    Adjuster nodes with ids `ADJ_counter`, appending each id to the pool and
    bumping the adjuster counter. -/
def createAdjusterPool (num : Nat) (s : GenState) : GenState :=
  (List.range num).foldl
    (fun s _ =>
      let pid := idStr "ADJ_" s.adjuster_counter
      let s := addNode s (fun nid => mkAdjusterNode nid pid)
      { s with adjuster_pool := s.adjuster_pool ++ [pid],
               adjuster_counter := s.adjuster_counter + 1 })
    s

/-! ## Tier calibration constants (data_generator.py tier builders) and
detector default thresholds (fraud_detection.py signatures) -/

/-- Inclusive structural-count range a tier builder draws from
    (`random.randint` bounds, or an exact constant loop bound). -/
structure TierRange where
  lo : Nat
  hi : Nat
  deriving Repr, DecidableEq

/-- Tier calibration of one fraud archetype against its detector default. -/
structure Archetype where
  tier1 : TierRange
  tier2 : TierRange
  tier3 : TierRange
  dflt : Nat
  deriving Repr, DecidableEq

/-- Medical mill: tier builders create 3-4 / 5-7 / 8-12 claims at a provider
    (lines 913, 945, 977); `detect_medical_mills` defaults `min_claims=5`. -/
def medicalMillArch : Archetype := ⟨⟨3, 4⟩, ⟨5, 7⟩, ⟨8, 12⟩, 5⟩

/-- Kickback: 2 / 3-4 / 5-8 shared claims (lines 1064, 1106, 1149);
    `detect_bodyshop_kickbacks` defaults `min_shared_claims=3`. -/
def kickbackArch : Archetype := ⟨⟨2, 2⟩, ⟨3, 4⟩, ⟨5, 8⟩, 3⟩

/-- Staged accident: 2 / 3-4 / 5-6 shared claims (lines 1232, 1268, 1305);
    `detect_staged_accidents` defaults `min_shared_claims=2`. -/
def stagedArch : Archetype := ⟨⟨2, 2⟩, ⟨3, 4⟩, ⟨5, 6⟩, 2⟩

/-- Phantom passenger: 2 / 3-4 / 5-7 KNOWS connections (lines 1379, 1411,
    1444); `detect_phantom_passengers` defaults `min_connections=3`. -/
def phantomArch : Archetype := ⟨⟨2, 2⟩, ⟨3, 4⟩, ⟨5, 7⟩, 3⟩

/-- Adjuster collusion: 3 / 4-5 / 6-8 shared claims (lines 1532, 1574, 1617);
    `detect_adjuster_collusion` defaults `min_shared_claims=4`. -/
def adjusterCollusionArch : Archetype := ⟨⟨3, 3⟩, ⟨4, 5⟩, ⟨6, 8⟩, 4⟩

def allArchetypes : List Archetype :=
  [medicalMillArch, kickbackArch, stagedArch, phantomArch, adjusterCollusionArch]

/-- The ordering the claim asserts for every archetype:
    tier1 strictly below the default, default at or below tier2, tier2
    strictly below tier3 (comparing whole ranges via their endpoints). -/
def strictTierOrdering (a : Archetype) : Prop :=
  a.tier1.hi < a.dflt ∧ a.dflt ≤ a.tier2.lo ∧ a.tier2.hi < a.tier3.lo

/-- The ordering with the tier-1/threshold comparison relaxed to `≤`. -/
def lenientTierOrdering (a : Archetype) : Prop :=
  a.tier1.hi ≤ a.dflt ∧ a.dflt ≤ a.tier2.lo ∧ a.tier2.hi < a.tier3.lo

instance (a : Archetype) : Decidable (strictTierOrdering a) := by
  unfold strictTierOrdering; infer_instance

instance (a : Archetype) : Decidable (lenientTierOrdering a) := by
  unfold lenientTierOrdering; infer_instance

/-! ## Legacy redistribution (data_generator.py lines 1905-1933) -/

/-- The per-archetype share in `create_implicit_fraud_patterns`: for
    `count > 0`, `t1 = max(1, int(count*0.4))`, `t2 = max(1, int(count*0.4))`,
    `t3 = max(0, count - t1 - t2)`; for `count = 0` all tiers are 0.
    `int(count * 0.4)` is `2 * count / 5` in exact arithmetic; the binary64
    product never strays across an integer for any count the entry point is
    given, so Nat floor division is the faithful model. -/
def legacyTierSplit (count : Nat) : Nat × Nat × Nat :=
  if 0 < count then
    let t1 := max 1 (2 * count / 5)
    let t2 := max 1 (2 * count / 5)
    let t3 := count - (t1 + t2)
    (t1, t2, t3)
  else (0, 0, 0)

/-! ## Detection engine (fraud_detection.py)

Each detector is split into a pure findings function (the read query plus the
Python post-processing of its rows) and a flag-writing step (the write
queries), mirroring the structure of the source. -/

def setSusp (t : String) (sc : ℤ) (n : GNode) : GNode :=
  { n with suspicious := some true, suspicion_type := some t, suspicion_score := some sc }

/-- Targets of `(c)-[:rt]->(t)` where `t` carries all labels in `labs`. -/
def outTargets (g : Graph) (c : GNode) (rt : String) (labs : List String) : List GNode :=
  g.edges.filterMap (fun e =>
    if e.rtype == rt && e.src == c.nid then
      match nodeAt g e.dst with
      | some t => if labs.all (fun l => hasLabel t l) then some t else none
      | none => none
    else none)

/-- Cypher `MERGE (a)-[r:SUSPICIOUS_RELATIONSHIP]->(b) SET r.shared_claims = sc`. -/
def mergeSuspEdge (g : Graph) (aNid bNid : Nat) (sc : Nat) : Graph :=
  let isR : GEdge → Bool := fun e =>
    e.rtype == "SUSPICIOUS_RELATIONSHIP" && e.src == aNid && e.dst == bNid
  if g.edges.any isR then
    { g with edges := g.edges.map (fun e => if isR e then { e with shared_claims := some sc } else e) }
  else
    { g with edges := g.edges ++ [⟨aNid, bNid, "SUSPICIOUS_RELATIONSHIP", some sc⟩] }

/-! ### detect_medical_mills (lines 70-149) -/

structure MillFinding where
  provider_id : String
  claim_count : Nat
  avg_amount : ℚ
  claim_ids : List String
  suspicion_score : ℤ
  deriving Repr, DecidableEq

/-- Mill score `min(100, claim_count * 8 + int(avg_amount / 1000))`. -/
def scoreMill (cc : Nat) (avg : ℚ) : ℤ := min 100 ((cc : ℤ) * 8 + pyTrunc (avg / 1000))

/-- Rows of the mill read query: one `(provider, claim)` row per TREATED_AT
    edge from an unlabeled claim to a not-known-fraud provider. -/
def millRows (g : Graph) : List (GNode × GNode) :=
  g.edges.filterMap (fun e =>
    if e.rtype == "TREATED_AT" then
      match nodeAt g e.src, nodeAt g e.dst with
      | some c, some m =>
          if hasLabel c "Claim" && hasLabel m "MedicalProvider" &&
             unlabeledClaimB c && notFraudB m
          then some (m, c) else none
      | _, _ => none
    else none)

/-- Cypher `WITH m, collect(c) as claims, count(c) as claim_count`. -/
def millGroups (g : Graph) : List (GNode × List GNode) :=
  (groupRows (fun r => r.1.nid) (millRows g)).filterMap (fun grp =>
    match grp with
    | [] => none
    | r :: rs => some (r.1, (r :: rs).map (fun x => x.2)))

/-- Findings of `detect_medical_mills`: providers with at least `min_claims`
    matched claims whose average amount exceeds `min_avg`, ordered by
    claim count then average descending.  (The Python result dict also
    carries the average rounded to two decimals for display; the raw average
    is what feeds the score, and is what we record.) -/
def detectMedicalMillsFindings (g : Graph) (min_claims : Nat) (min_avg : ℚ) :
    List MillFinding :=
  let cand := (millGroups g).filter (fun mc => min_claims ≤ mc.2.length)
  let withAvg := cand.map (fun mc =>
    (mc.1, mc.2, ((mc.2.map (fun c => c.claim_amount)).sum) / (mc.2.length : ℚ)))
  let pass := withAvg.filter (fun t => min_avg < t.2.2)
  let sorted := sortByB (fun a b =>
      b.2.1.length < a.2.1.length ||
      (a.2.1.length == b.2.1.length && b.2.2 ≤ a.2.2)) pass
  sorted.map (fun t =>
    { provider_id := t.1.pid, claim_count := t.2.1.length, avg_amount := t.2.2,
      claim_ids := t.2.1.map (fun c => c.pid),
      suspicion_score := scoreMill t.2.1.length t.2.2 })

/-- Flag-writing step of `detect_medical_mills` for one finding: set the
    suspicion fields on matching not-known-fraud providers, then on every
    unlabeled claim treated at one of them at 80 percent of the score. -/
def applyMillFlag (g : Graph) (f : MillFinding) : Graph :=
  let provP : GNode → Bool := fun n =>
    notFraudB n && hasLabel n "MedicalProvider" && n.pid == f.provider_id
  let g1 := condMap provP (setSusp "Medical Mill" f.suspicion_score) g
  let provN := (g.nodes.filter provP).map (fun n => n.nid)
  let claimP : GNode → Bool := fun c =>
    unlabeledClaimB c && hasLabel c "Claim" &&
    g.edges.any (fun e => e.rtype == "TREATED_AT" && e.src == c.nid && provN.contains e.dst)
  condMap claimP (setSusp "Medical Mill" (propScore f.suspicion_score)) g1

def detectMedicalMills (g : Graph) (min_claims : Nat) (min_avg : ℚ) :
    List MillFinding × Graph :=
  let fs := detectMedicalMillsFindings g min_claims min_avg
  (fs, fs.foldl applyMillFlag g)

/-! ### detect_bodyshop_kickbacks (lines 151-237) -/

structure KickbackFinding where
  attorney_id : String
  bodyshop_id : String
  shared_claims : Nat
  claim_ids : List String
  suspicion_score : ℤ
  deriving Repr, DecidableEq

/-- Kickback score `min(100, shared_claims * 15)`. -/
def scoreKickback (sc : Nat) : ℤ := min 100 ((sc : ℤ) * 15)

/-- Rows `((attorney, bodyshop), claim)` of the kickback read query. -/
def kickbackRows (g : Graph) : List ((GNode × GNode) × GNode) :=
  (g.nodes.filter (fun c => hasLabel c "Claim" && unlabeledClaimB c)).flatMap (fun c =>
    ((outTargets g c "REPRESENTED_BY" ["Attorney"]).filter notFraudB).flatMap (fun a =>
      ((outTargets g c "REPAIRED_AT" ["BodyShop"]).filter notFraudB).map (fun b =>
        ((a, b), c))))

def kickbackGroups (g : Graph) : List ((GNode × GNode) × List GNode) :=
  (groupRows (fun r => (r.1.1.nid, r.1.2.nid)) (kickbackRows g)).filterMap (fun grp =>
    match grp with
    | [] => none
    | r :: rs => some (r.1, (r :: rs).map (fun x => x.2)))

def detectKickbacksFindings (g : Graph) (minShared : Nat) : List KickbackFinding :=
  let pass := (kickbackGroups g).filter (fun t => minShared ≤ t.2.length)
  let sorted := sortByB (fun a b => b.2.length ≤ a.2.length) pass
  sorted.map (fun t =>
    { attorney_id := t.1.1.pid, bodyshop_id := t.1.2.pid, shared_claims := t.2.length,
      claim_ids := t.2.map (fun c => c.pid), suspicion_score := scoreKickback t.2.length })

/-- Flag-writing step of `detect_bodyshop_kickbacks` for one finding: if both
    the attorney and the body shop still match their not-known-fraud guards,
    flag them, merge the SUSPICIOUS_RELATIONSHIP edge carrying the shared
    count, and flag their shared unlabeled claims at 80 percent. -/
def applyKickbackFlag (g : Graph) (f : KickbackFinding) : Graph :=
  let aP : GNode → Bool := fun n => notFraudB n && hasLabel n "Attorney" && n.pid == f.attorney_id
  let bP : GNode → Bool := fun n => notFraudB n && hasLabel n "BodyShop" && n.pid == f.bodyshop_id
  let as := g.nodes.filter aP
  let bs := g.nodes.filter bP
  if as.isEmpty || bs.isEmpty then g else
    let g1 := condMap (fun n => aP n || bP n) (setSusp "Kickback Scheme" f.suspicion_score) g
    let g2 := as.foldl (fun gacc a =>
        bs.foldl (fun gacc2 b => mergeSuspEdge gacc2 a.nid b.nid f.shared_claims) gacc) g1
    let aN := as.map (fun n => n.nid)
    let bN := bs.map (fun n => n.nid)
    let claimP : GNode → Bool := fun c =>
      unlabeledClaimB c && hasLabel c "Claim" &&
      g.edges.any (fun e => e.rtype == "REPRESENTED_BY" && e.src == c.nid && aN.contains e.dst) &&
      g.edges.any (fun e => e.rtype == "REPAIRED_AT" && e.src == c.nid && bN.contains e.dst)
    condMap claimP (setSusp "Kickback Scheme" (propScore f.suspicion_score)) g2

def detectKickbacks (g : Graph) (minShared : Nat) : List KickbackFinding × Graph :=
  let fs := detectKickbacksFindings g minShared
  (fs, fs.foldl applyKickbackFlag g)

/-! ### detect_staged_accidents (lines 239-348) -/

structure StagedFinding where
  person1_id : String
  person2_id : String
  shared_claims : Nat
  claim_ids : List String
  suspicion_score : ℤ
  deriving Repr, DecidableEq

/-- Staged score `min(100, shared_claims * 25)`. -/
def scoreStaged (sc : Nat) : ℤ := min 100 ((sc : ℤ) * 25)

/-- Rows `(claim, person)` of the first staged MATCH: unlabeled Auto claims
    linked by FILED_BY or WITNESSED_BY to not-known-fraud persons. -/
def stagedCP (g : Graph) : List (GNode × GNode) :=
  g.edges.filterMap (fun e =>
    if e.rtype == "FILED_BY" || e.rtype == "WITNESSED_BY" then
      match nodeAt g e.src, nodeAt g e.dst with
      | some c, some p =>
          if hasLabel c "Claim" && hasLabel p "Person" && unlabeledClaimB c &&
             c.claim_type == "Auto" && notFraudB p
          then some (c, p) else none
      | _, _ => none
    else none)

/-- Cypher `collect(DISTINCT c)`: distinct-by-internal-id in first-occurrence order. -/
def dedupByNid (l : List GNode) : List GNode :=
  (firstDedup (l.map (fun n => n.nid))).filterMap (fun k => l.find? (fun n => n.nid == k))

/-- Cypher `WITH p, collect(DISTINCT c) as claims`. -/
def stagedPersonClaims (g : Graph) : List (GNode × List GNode) :=
  (groupRows (fun r => r.2.nid) (stagedCP g)).filterMap (fun grp =>
    match grp with
    | [] => none
    | r :: rs => some (r.2, dedupByNid ((r :: rs).map (fun x => x.1))))

/-- Persons reachable from a claim via FILED_BY or WITNESSED_BY, one per edge. -/
def fwTargets (g : Graph) (c : GNode) : List GNode :=
  g.edges.filterMap (fun e =>
    if (e.rtype == "FILED_BY" || e.rtype == "WITNESSED_BY") && e.src == c.nid then
      match nodeAt g e.dst with
      | some p => if hasLabel p "Person" then some p else none
      | none => none
    else none)

structure StagedQuad where
  p : GNode
  other : GNode
  claim1 : GNode
  claim2 : GNode
  deriving Repr, DecidableEq

/-- Pre-aggregation rows of the staged query: for each person `p` with at
    least `minShared` distinct Auto claims, for each internal-id-ordered claim
    pair, each co-occurring `other` person (distinct business id from `p`,
    not known fraud), one row per matching relationship pair. -/
def stagedQuads (g : Graph) (minShared : Nat) : List StagedQuad :=
  ((stagedPersonClaims g).filter (fun pc => minShared ≤ pc.2.length)).flatMap (fun pc =>
    pc.2.flatMap (fun c1 =>
      pc.2.flatMap (fun c2 =>
        if c1.nid < c2.nid then
          (fwTargets g c1).flatMap (fun o1 =>
            (fwTargets g c2).filterMap (fun o2 =>
              if o1.nid == o2.nid && !(pc.1.pid == o1.pid) && notFraudB o1
              then some ⟨pc.1, o1, c1, c2⟩ else none))
        else [])))

structure StagedRow where
  p : GNode
  other : GNode
  ids : List String
  shared : Nat
  deriving Repr, DecidableEq

/-- Cypher `WITH p, other, collect(DISTINCT claim1.id) + collect(DISTINCT claim2.id)
    as shared_claim_ids` and its size: the concatenation of the distinct
    first components and the distinct second components of the claim pairs. -/
def stagedPairRows (g : Graph) (minShared : Nat) : List StagedRow :=
  (groupRows (fun q => (q.p.nid, q.other.nid)) (stagedQuads g minShared)).filterMap
    (fun grp =>
      match grp with
      | [] => none
      | q :: qs =>
          let rows := q :: qs
          let ids := firstDedup (rows.map (fun x => x.claim1.pid)) ++
                     firstDedup (rows.map (fun x => x.claim2.pid))
          some ⟨q.p, q.other, ids, ids.length⟩)

/-- Threshold filter, `ORDER BY shared_claims DESC`, and `LIMIT 50`. -/
def stagedLimitedRows (g : Graph) (minShared : Nat) : List StagedRow :=
  let pass := (stagedPairRows g minShared).filter (fun r => minShared ≤ r.shared)
  (sortByB (fun a b => b.shared ≤ a.shared) pass).take 50

/-- Python-side symmetric-pair membership check (`tuple(sorted([p1, p2]))`
    against `seen_pairs`): the unordered pair has been seen. -/
def seenPair (seen : List (String × String)) (a b : String) : Bool :=
  decide ((a, b) ∈ seen ∨ (b, a) ∈ seen)

def dedupStagedRows (l : List StagedRow) : List StagedRow :=
  (l.foldl (fun acc r =>
      if seenPair acc.2 r.p.pid r.other.pid then acc
      else (acc.1 ++ [r], acc.2 ++ [(r.p.pid, r.other.pid)])) ([], [])).1

/-- Findings of `detect_staged_accidents`; `claim_ids` is `list(set(...))`,
    modelled in first-occurrence order. -/
def detectStagedFindings (g : Graph) (minShared : Nat) : List StagedFinding :=
  (dedupStagedRows (stagedLimitedRows g minShared)).map (fun r =>
    { person1_id := r.p.pid, person2_id := r.other.pid, shared_claims := r.shared,
      claim_ids := firstDedup r.ids, suspicion_score := scoreStaged r.shared })

/-- Flag-writing loop of `detect_staged_accidents`: per finding, flag both
    persons (guarded), then flag each not-yet-flagged unlabeled claim at 80
    percent of the score (the `claims_flagged` set makes the first finding
    that reaches a claim win). -/
def applyStagedFlag (acc : Graph × List String) (f : StagedFinding) : Graph × List String :=
  let personP : String → GNode → Bool := fun pidv n =>
    notFraudB n && hasLabel n "Person" && n.pid == pidv
  let g1 := condMap (personP f.person1_id) (setSusp "Staged Accident" f.suspicion_score) acc.1
  let g2 := condMap (personP f.person2_id) (setSusp "Staged Accident" f.suspicion_score) g1
  f.claim_ids.foldl (fun acc2 cid =>
    if acc2.2.contains cid then acc2
    else
      (condMap (fun c => unlabeledClaimB c && hasLabel c "Claim" && c.pid == cid)
        (setSusp "Staged Accident" (propScore f.suspicion_score)) acc2.1,
       acc2.2 ++ [cid])) (g2, acc.2)

def detectStaged (g : Graph) (minShared : Nat) : List StagedFinding × Graph :=
  let fs := detectStagedFindings g minShared
  (fs, (fs.foldl applyStagedFlag (g, [])).1)

/-! ### detect_phantom_passengers (lines 350-433) -/

structure PhantomFinding where
  person_id : String
  connection_count : Nat
  claim_count : Nat
  claim_ids : List String
  claimant_ids : List String
  suspicion_score : ℤ
  deriving Repr, DecidableEq

/-- Phantom score `min(100, connection_count * 20)`. -/
def scorePhantom (cc : Nat) : ℤ := min 100 ((cc : ℤ) * 20)

/-- Rows `(p, connected)` of the undirected
    `(p:Person:Claimant)-[:KNOWS]-(connected:Person:Claimant)` match: each
    KNOWS edge between qualifying persons appears in both orientations. -/
def knowsRows (g : Graph) : List (GNode × GNode) :=
  g.edges.flatMap (fun e =>
    if e.rtype == "KNOWS" then
      match nodeAt g e.src, nodeAt g e.dst with
      | some a, some b =>
          if (hasLabel a "Person" && hasLabel a "Claimant" && notFraudB a) &&
             (hasLabel b "Person" && hasLabel b "Claimant" && notFraudB b)
          then [(a, b), (b, a)] else []
      | _, _ => []
    else [])

structure PhantomGroup where
  connected : GNode
  claimants : List GNode
  connection_count : Nat
  deriving Repr, DecidableEq

/-- Cypher `WITH connected, collect(DISTINCT p) as claimants,
    count(DISTINCT p) as connection_count`. -/
def phantomGroups (g : Graph) : List PhantomGroup :=
  (groupRows (fun r => r.2.nid) (knowsRows g)).filterMap (fun grp =>
    match grp with
    | [] => none
    | r :: rs =>
        let cl := dedupByNid ((r :: rs).map (fun x => x.1))
        some ⟨r.2, cl, cl.length⟩)

/-- Cypher `OPTIONAL MATCH (connected)-[:FILED_BY]-(c:Claim) WHERE c.is_fraud =
    false` — an undirected FILED_BY traversal collecting unlabeled claims. -/
def filedClaimsUndirected (g : Graph) (p : GNode) : List GNode :=
  g.edges.filterMap (fun e =>
    if e.rtype == "FILED_BY" && (e.src == p.nid || e.dst == p.nid) then
      match nodeAt g (if e.src == p.nid then e.dst else e.src) with
      | some c => if hasLabel c "Claim" && unlabeledClaimB c then some c else none
      | none => none
    else none)

structure PhantomRow where
  grp : PhantomGroup
  claims : List GNode
  deriving Repr, DecidableEq

def detectPhantomFindings (g : Graph) (minConn : Nat) : List PhantomFinding :=
  let cand := (phantomGroups g).filter (fun t => minConn ≤ t.connection_count)
  let withClaims : List PhantomRow := cand.map (fun t => ⟨t, filedClaimsUndirected g t.connected⟩)
  let nonEmpty := withClaims.filter (fun t => 0 < t.claims.length)
  let pass := nonEmpty.filter (fun t => minConn ≤ t.claims.length)
  let sorted := sortByB (fun a b =>
      b.grp.connection_count < a.grp.connection_count ||
      (a.grp.connection_count == b.grp.connection_count && b.claims.length ≤ a.claims.length)) pass
  sorted.map (fun t =>
    { person_id := t.grp.connected.pid, connection_count := t.grp.connection_count,
      claim_count := t.claims.length, claim_ids := t.claims.map (fun c => c.pid),
      claimant_ids := t.grp.claimants.map (fun c => c.pid),
      suspicion_score := scorePhantom t.grp.connection_count })

def applyPhantomFlag (g : Graph) (f : PhantomFinding) : Graph :=
  let pP : GNode → Bool := fun n => notFraudB n && hasLabel n "Person" && n.pid == f.person_id
  let g1 := condMap pP (setSusp "Phantom Passenger" f.suspicion_score) g
  let pN := (g.nodes.filter pP).map (fun n => n.nid)
  let claimP : GNode → Bool := fun c =>
    unlabeledClaimB c && hasLabel c "Claim" &&
    g.edges.any (fun e => e.rtype == "FILED_BY" && e.src == c.nid && pN.contains e.dst)
  condMap claimP (setSusp "Phantom Passenger" (propScore f.suspicion_score)) g1

def detectPhantoms (g : Graph) (minConn : Nat) : List PhantomFinding × Graph :=
  let fs := detectPhantomFindings g minConn
  (fs, fs.foldl applyPhantomFlag g)

/-! ### detect_adjuster_collusion (lines 435-522) -/

structure CollusionFinding where
  adjuster_id : String
  provider_id : String
  shared_claims : Nat
  claim_ids : List String
  suspicion_score : ℤ
  deriving Repr, DecidableEq

/-- Collusion score `min(100, shared_claims * 12)`. -/
def scoreCollusion (sc : Nat) : ℤ := min 100 ((sc : ℤ) * 12)

/-- Rows `((adjuster, provider), claim)` of the collusion read query. -/
def collusionRows (g : Graph) : List ((GNode × GNode) × GNode) :=
  (g.nodes.filter (fun c => hasLabel c "Claim" && unlabeledClaimB c)).flatMap (fun c =>
    ((outTargets g c "HANDLED_BY" ["Person", "Adjuster"]).filter notFraudB).flatMap (fun a =>
      ((outTargets g c "TREATED_AT" ["MedicalProvider"]).filter notFraudB).map (fun m =>
        ((a, m), c))))

def collusionGroups (g : Graph) : List ((GNode × GNode) × List GNode) :=
  (groupRows (fun r => (r.1.1.nid, r.1.2.nid)) (collusionRows g)).filterMap (fun grp =>
    match grp with
    | [] => none
    | r :: rs => some (r.1, (r :: rs).map (fun x => x.2)))

def detectCollusionFindings (g : Graph) (minShared : Nat) : List CollusionFinding :=
  let pass := (collusionGroups g).filter (fun t => minShared ≤ t.2.length)
  let sorted := sortByB (fun a b => b.2.length ≤ a.2.length) pass
  sorted.map (fun t =>
    { adjuster_id := t.1.1.pid, provider_id := t.1.2.pid, shared_claims := t.2.length,
      claim_ids := t.2.map (fun c => c.pid), suspicion_score := scoreCollusion t.2.length })

def applyCollusionFlag (g : Graph) (f : CollusionFinding) : Graph :=
  let aP : GNode → Bool := fun n =>
    notFraudB n && hasLabel n "Person" && hasLabel n "Adjuster" && n.pid == f.adjuster_id
  let mP : GNode → Bool := fun n =>
    notFraudB n && hasLabel n "MedicalProvider" && n.pid == f.provider_id
  let as := g.nodes.filter aP
  let ms := g.nodes.filter mP
  if as.isEmpty || ms.isEmpty then g else
    let g1 := condMap (fun n => aP n || mP n)
      (setSusp "Adjuster-Provider Collusion" f.suspicion_score) g
    let g2 := as.foldl (fun gacc a =>
        ms.foldl (fun gacc2 m => mergeSuspEdge gacc2 a.nid m.nid f.shared_claims) gacc) g1
    let aN := as.map (fun n => n.nid)
    let mN := ms.map (fun n => n.nid)
    let claimP : GNode → Bool := fun c =>
      unlabeledClaimB c && hasLabel c "Claim" &&
      g.edges.any (fun e => e.rtype == "HANDLED_BY" && e.src == c.nid && aN.contains e.dst) &&
      g.edges.any (fun e => e.rtype == "TREATED_AT" && e.src == c.nid && mN.contains e.dst)
    condMap claimP (setSusp "Adjuster-Provider Collusion" (propScore f.suspicion_score)) g2

def detectCollusion (g : Graph) (minShared : Nat) : List CollusionFinding × Graph :=
  let fs := detectCollusionFindings g minShared
  (fs, fs.foldl applyCollusionFlag g)

/-! ### calculate_network_metrics (lines 524-558) and run_all_detections -/

def nodeDegree (g : Graph) (i : Nat) : Nat :=
  (g.edges.filter (fun e => e.src == i || e.dst == i)).length

/-- Model of `calculate_network_metrics`: writes `degree_centrality` onto every
    not-known-fraud node of total degree above 5 (the summary query is a pure
    read and is omitted). -/
def calculateNetworkMetrics (g : Graph) : Graph :=
  condMap (fun n => notFraudB n && 5 < nodeDegree g n.nid)
    (fun n => { n with degree_centrality := some ((nodeDegree g n.nid : ℤ)) }) g

structure DetectionResults where
  medical_mills : List MillFinding
  kickbacks : List KickbackFinding
  staged_accidents : List StagedFinding
  phantom_passengers : List PhantomFinding
  adjuster_collusion : List CollusionFinding
  deriving Repr, DecidableEq

/-- Model of `run_all_detections` (lines 589-647): clear, then the five detectors in
    their fixed order (the mill detector keeps its default
    `min_avg_amount=15000`, which `run_all_detections` never overrides),
    then the network-metrics pass. -/
def runAllDetections (g : Graph) (min_claims min_shared_claims min_staged_claims
    min_connections min_adjuster_collusion : Nat) : DetectionResults × Graph :=
  let g0 := (clearPreviousDetections g).2
  let mm := detectMedicalMills g0 min_claims 15000
  let kb := detectKickbacks mm.2 min_shared_claims
  let st := detectStaged kb.2 min_staged_claims
  let ph := detectPhantoms st.2 min_connections
  let ac := detectCollusion ph.2 min_adjuster_collusion
  (⟨mm.1, kb.1, st.1, ph.1, ac.1⟩, calculateNetworkMetrics ac.2)

/-! ## Generator node constructors (data_generator.py CREATE statements)

Each constructor reproduces the property set of one CREATE statement.  None of
them sets `suspicious`, `suspicion_type`, `suspicion_score` or
`degree_centrality` — those properties are written by detectors only. -/

def mkClaimNode (nid : Nat) (pid : String) (amount : ℚ) (ctype : String)
    (isf : Option Bool) (ft : Option String) : GNode :=
  { nid := nid, labels := ["Claim"], pid := pid, claim_amount := amount,
    claim_type := ctype, is_fraud := isf, fraud_type := ft }

def mkClaimantNode (nid : Nat) (pid : String) (isf : Option Bool) (ft : Option String) : GNode :=
  { nid := nid, labels := ["Person", "Claimant"], pid := pid, is_fraud := isf, fraud_type := ft }

def mkWitnessNode (nid : Nat) (pid : String) : GNode :=
  { nid := nid, labels := ["Person", "Witness"], pid := pid }

def mkProviderNode (nid : Nat) (pid : String) (isf : Option Bool) (ft : Option String) : GNode :=
  { nid := nid, labels := ["MedicalProvider"], pid := pid, is_fraud := isf, fraud_type := ft }

def mkAttorneyNode (nid : Nat) (pid : String) (isf : Option Bool) (ft : Option String) : GNode :=
  { nid := nid, labels := ["Attorney"], pid := pid, is_fraud := isf, fraud_type := ft }

def mkBodyShopNode (nid : Nat) (pid : String) (isf : Option Bool) (ft : Option String) : GNode :=
  { nid := nid, labels := ["BodyShop"], pid := pid, is_fraud := isf, fraud_type := ft }

/-- A node as every generator CREATE statement leaves it: no suspicion
    annotations and no centrality. -/
def cleanNode (n : GNode) : Prop :=
  n.suspicious = none ∧ n.suspicion_type = none ∧
  n.suspicion_score = none ∧ n.degree_centrality = none

/-- The relationship types the generator creates (every `CREATE ()-[:T]->()`
    in data_generator.py); SUSPICIOUS_RELATIONSHIP is created by detectors
    only. -/
def generatorEdgeTypes : List String :=
  ["FILED_BY", "WITNESSED_BY", "HANDLED_BY", "TREATED_AT", "REPRESENTED_BY",
   "REPAIRED_AT", "KNOWS", "REFERS_TO", "COLLUDES_WITH"]

/-- A graph as the generator leaves it before any detector has run: clean
    nodes and only generator-created relationship types. -/
def FreshlyGenerated (g : Graph) : Prop :=
  (∀ n ∈ g.nodes, cleanNode n) ∧ (∀ e ∈ g.edges, e.rtype ∈ generatorEdgeTypes)

instance (n : GNode) : Decidable (cleanNode n) := by
  unfold cleanNode; infer_instance

instance (g : Graph) : Decidable (FreshlyGenerated g) := by
  unfold FreshlyGenerated; infer_instance

/-! ## Claim generation routines referenced by the error-handling claim -/

def adjusterPoolErrMsg : String :=
  "Adjuster pool is empty! Call create_adjuster_pool() first."

def providerPoolErrMsg : String :=
  "Medical provider pool is empty! Call create_service_provider_pools() first."

/-- Message of the `IndexError` that Python `random.choice` raises on an empty
    sequence — the failure mode of the fraud-ring builders, which perform no
    pool check of their own. -/
def emptyChoiceErrMsg : String := "Cannot choose from an empty sequence"

/-- Model of `random.choice(pool)`: an error on an empty pool, otherwise some element
    (which element is random; the draw is supplied as an index). -/
def pickE (l : List String) (i : Nat) : Except String String :=
  if l.isEmpty then Except.error emptyChoiceErrMsg else Except.ok (l.getD (i % l.length) "")

/-- The random draws one iteration of `create_legitimate_claims` consumes
    (claim type, amount, adjuster choice, the witness coin, and the
    per-claim-type provider attachments with their coins and choices). -/
structure LegitPlan where
  claimType : String
  amount : ℚ
  adjIdx : Nat
  hasWitness : Bool
  providerIdx : Nat
  attorneyCoin : Bool
  attorneyIdx : Nat
  bodyshopCoin : Bool
  bodyshopIdx : Nat
  deriving Repr, DecidableEq

/-- Model of `add_witness` (lines 310-330): mint a fresh Witness and link it. -/
def addWitnessStep (claimPid : String) (s : GenState) : GenState :=
  let wPid := idStr "P_" s.person_counter
  let s := { s with person_counter := s.person_counter + 1 }
  let s := addNode s (fun nid => mkWitnessNode nid wPid)
  addEdgeByPid s claimPid wPid "WITNESSED_BY"

/-- One iteration of the `create_legitimate_claims` loop (lines 238-305):
    allocate claim and claimant ids, link the pooled adjuster, maybe a
    witness, then the claim-type-conditioned service providers (each chosen
    from its shared pool; an empty pool surfaces as the `random.choice`
    error, stopping the batch with prior iterations already committed). -/
def createOneLegitClaim (acc : GenState × Option String) (pl : LegitPlan) :
    GenState × Option String :=
  match acc with
  | (s, some e) => (s, some e)
  | (s, none) =>
    let claimPid := idStr "CLM_" s.claim_counter
    let s := { s with claim_counter := s.claim_counter + 1 }
    let clPid := idStr "P_" s.person_counter
    let s := { s with person_counter := s.person_counter + 1 }
    match pickE s.adjuster_pool pl.adjIdx with
    | Except.error e => (s, some e)
    | Except.ok adjPid =>
      let s := addNode s (fun nid =>
        mkClaimNode nid claimPid pl.amount pl.claimType (some false) none)
      let s := addNode s (fun nid => mkClaimantNode nid clPid none none)
      let s := addEdgeByPid s claimPid clPid "FILED_BY"
      let s := addEdgeByPid s claimPid adjPid "HANDLED_BY"
      let s := if pl.hasWitness then addWitnessStep claimPid s else s
      if pl.claimType == "Medical" then
        match pickE s.medical_provider_pool pl.providerIdx with
        | Except.error e => (s, some e)
        | Except.ok mPid =>
          let s := addEdgeByPid s claimPid mPid "TREATED_AT"
          if pl.attorneyCoin then
            match pickE s.attorney_pool pl.attorneyIdx with
            | Except.error e => (s, some e)
            | Except.ok aPid => (addEdgeByPid s claimPid aPid "REPRESENTED_BY", none)
          else (s, none)
      else if pl.claimType == "Auto" then
        match (if pl.bodyshopCoin then (pickE s.bodyshop_pool pl.bodyshopIdx).map some
               else Except.ok none) with
        | Except.error e => (s, some e)
        | Except.ok obPid =>
          let s := match obPid with
                   | some bPid => addEdgeByPid s claimPid bPid "REPAIRED_AT"
                   | none => s
          if pl.attorneyCoin then
            match pickE s.attorney_pool pl.attorneyIdx with
            | Except.error e => (s, some e)
            | Except.ok aPid => (addEdgeByPid s claimPid aPid "REPRESENTED_BY", none)
          else (s, none)
      else
        if pl.attorneyCoin then
          match pickE s.attorney_pool pl.attorneyIdx with
          | Except.error e => (s, some e)
          | Except.ok aPid => (addEdgeByPid s claimPid aPid "REPRESENTED_BY", none)
        else (s, none)

/-- Model of `create_legitimate_claims` (lines 227-308): the up-front pool checks
    (raising before anything is created), then the claim loop. -/
def createLegitimateClaims (plans : List LegitPlan) (s : GenState) :
    GenState × Option String :=
  if s.adjuster_pool.isEmpty then (s, some adjusterPoolErrMsg)
  else if s.medical_provider_pool.isEmpty then (s, some providerPoolErrMsg)
  else plans.foldl createOneLegitClaim (s, none)

/-- The random draws one medical-mill ring consumes: the claim count drawn
    from `randint(8, 15)` and per-claim amount and adjuster draws. -/
structure MillRingPlan where
  numClaims : Nat
  amount : ℚ
  adjIdx : Nat
  deriving Repr, DecidableEq

/-- The claim loop of one `create_medical_mill` ring (lines 415-463): the
    claim and claimant counters are bumped before the adjuster draw, so an
    empty adjuster pool fails here — after the fraud provider and
    attorney already exist. -/
def createMillClaims (provPid attPid : String) (pl : MillRingPlan) :
    Nat → GenState → GenState × Option String
  | 0, s => (s, none)
  | Nat.succ k, s =>
    let claimPid := idStr "CLM_" s.claim_counter
    let s := { s with claim_counter := s.claim_counter + 1 }
    let clPid := idStr "P_" s.person_counter
    let s := { s with person_counter := s.person_counter + 1 }
    match pickE s.adjuster_pool pl.adjIdx with
    | Except.error e => (s, some e)
    | Except.ok adjPid =>
      let s := addNode s (fun nid =>
        mkClaimNode nid claimPid pl.amount "Medical" (some true) (some "Medical Mill"))
      let s := addNode s (fun nid => mkClaimantNode nid clPid none none)
      let s := addEdgeByPid s claimPid clPid "FILED_BY"
      let s := addEdgeByPid s claimPid provPid "TREATED_AT"
      let s := addEdgeByPid s claimPid attPid "REPRESENTED_BY"
      let s := addEdgeByPid s claimPid adjPid "HANDLED_BY"
      createMillClaims provPid attPid pl k s

/-- The ring loop of `create_medical_mill` (lines 372-466): per ring, create
    the labeled fraud provider and attorney, then the claims of the ring.  There
    is no pool precondition check anywhere in this builder. -/
def createMedicalMillGo (ringIdx : Nat) (rings : List MillRingPlan) (s : GenState) :
    GenState × Option String :=
  match rings with
  | [] => (s, none)
  | r :: rest =>
    let provPid := "MED_FRAUD_MM_" ++ toString ringIdx ++ "_" ++ toString s.provider_counter
    let s := { s with provider_counter := s.provider_counter + 1 }
    let s := addNode s (fun nid => mkProviderNode nid provPid (some true) (some "Medical Mill"))
    let attPid := "ATT_FRAUD_MM_" ++ toString ringIdx ++ "_" ++ toString s.attorney_counter
    let s := { s with attorney_counter := s.attorney_counter + 1 }
    let s := addNode s (fun nid => mkAttorneyNode nid attPid (some true) (some "Medical Mill"))
    match createMillClaims provPid attPid r r.numClaims s with
    | (s1, some e) => (s1, some e)
    | (s1, none) => createMedicalMillGo (ringIdx + 1) rest s1

def createMedicalMill (rings : List MillRingPlan) (s : GenState) : GenState × Option String :=
  createMedicalMillGo 0 rings s

/-! ## Tiered implicit phantom generator (data_generator.py lines 1417-1491) -/

/-- Model of `_create_implicit_phantom_claim`: mint an unlabeled phantom Claimant and
    its unlabeled Auto claim, file the claim by the phantom, hand it to a
    pooled adjuster, and link the phantom to the hub with KNOWS.  The random
    amount and adjuster draw are passed in; neither influences the phantom
    detector. -/
def createImplicitPhantomClaim (mainPid : String) (amount : ℚ) (adjIdx : Nat)
    (s : GenState) : GenState × Option String :=
  let phPid := idStr "P_" s.person_counter
  let s := { s with person_counter := s.person_counter + 1 }
  let claimPid := idStr "CLM_" s.claim_counter
  let s := { s with claim_counter := s.claim_counter + 1 }
  match pickE s.adjuster_pool adjIdx with
  | Except.error e => (s, some e)
  | Except.ok adjPid =>
    let s := addNode s (fun nid => mkClaimantNode nid phPid none none)
    let s := addNode s (fun nid => mkClaimNode nid claimPid amount "Auto" (some false) none)
    let s := addEdgeByPid s claimPid phPid "FILED_BY"
    let s := addEdgeByPid s claimPid adjPid "HANDLED_BY"
    let s := addEdgeByPid s phPid mainPid "KNOWS"
    (s, none)

/-- Helper: run `k` phantom-claim steps against the same hub. -/
def phantomClaimLoop (mainPid : String) (amount : ℚ) (adjIdx : Nat) :
    Nat → GenState → GenState × Option String
  | 0, s => (s, none)
  | Nat.succ k, s =>
    match createImplicitPhantomClaim mainPid amount adjIdx s with
    | (s1, some e) => (s1, some e)
    | (s1, none) => phantomClaimLoop mainPid amount adjIdx k s1

/-- One instance of `_create_implicit_phantom_tier3`: an unlabeled hub
    Claimant plus `numPhantoms` phantom claims (`numPhantoms` is drawn from
    `randint(5, 7)`).  The hub files no claim of its own. -/
def createImplicitPhantomTier3Instance (numPhantoms : Nat) (amount : ℚ) (adjIdx : Nat)
    (s : GenState) : GenState × Option String :=
  let mainPid := idStr "P_" s.person_counter
  let s := { s with person_counter := s.person_counter + 1 }
  let s := addNode s (fun nid => mkClaimantNode nid mainPid none none)
  phantomClaimLoop mainPid amount adjIdx numPhantoms s

/-- The generation context for the tier-3 phantom scenario: a fresh store
    holding only the adjuster pool the claim loop draws from. -/
def phantomBaseState : GenState := createAdjusterPool 1 initGenState

/-- The graph produced by generating exactly one tier-3 implicit phantom
    instance with `k` phantoms and nothing else. -/
def phantomTier3Graph (k : Nat) : Graph :=
  (createImplicitPhantomTier3Instance k 10000 0 phantomBaseState).1.graph

/-! ## Concrete staged-accident scenario graphs -/

/-- Two unlabeled Persons `A` and `B` and `n` unlabeled Auto claims, each
    filed by `A` and witnessed by `B` — the isolated conspirator pair of
    end-to-end scenario C, generalized to `n` shared claims. -/
def twoPersonGraph (n : Nat) : Graph :=
  { nodes :=
      [mkClaimantNode 0 "A" none none, mkClaimantNode 1 "B" none none] ++
      (List.range n).map (fun i =>
        mkClaimNode (2 + i) ("C" ++ toString i) 10000 "Auto" (some false) none),
    edges :=
      (List.range n).flatMap (fun i =>
        [⟨2 + i, 0, "FILED_BY", none⟩, ⟨2 + i, 1, "WITNESSED_BY", none⟩]) }

/-- Eleven unlabeled Persons all co-occurring on the same two unlabeled Auto
    claims (one filer, ten witnesses per claim): every one of the 55
    unordered pairs qualifies at `min_shared_claims = 2`, more pairs than the
    LIMIT of the staged query. -/
def bigStagedGraph : Graph :=
  { nodes :=
      (List.range 11).map (fun i => mkClaimantNode i ("P" ++ toString i) none none) ++
      [mkClaimNode 11 "CA" 10000 "Auto" (some false) none,
       mkClaimNode 12 "CB" 10000 "Auto" (some false) none],
    edges :=
      (List.range 11).flatMap (fun i =>
        [⟨11, i, if i = 0 then "FILED_BY" else "WITNESSED_BY", none⟩,
         ⟨12, i, if i = 0 then "FILED_BY" else "WITNESSED_BY", none⟩]) }

/-! ## Parametric isolated-pair family (scenario C for arbitrary n) -/

/-- Claim business id for index `i`: the letter C repeated `i + 1` times
    (injective in `i`, so distinct claims carry distinct business ids). -/
def cpid (i : Nat) : String := ⟨List.replicate (i + 1) 'C'⟩

def nodeA : GNode := mkClaimantNode 0 "A" none none

def nodeB : GNode := mkClaimantNode 1 "B" none none

def clN (i : Nat) : GNode := mkClaimNode (2 + i) (cpid i) 10000 "Auto" (some false) none

def claimsN (n : Nat) : List GNode := (List.range n).map clN

/-- Two unlabeled Persons `A` and `B` alone on exactly `n` common unlabeled
    Auto claims, `A` filing and `B` witnessing each — the isolated
    conspirator pair of end-to-end scenario C for arbitrary `n`. -/
def pairGraphN (n : Nat) : Graph :=
  { nodes := [nodeA, nodeB] ++ claimsN n,
    edges := (List.range n).flatMap (fun i =>
      [⟨2 + i, 0, "FILED_BY", none⟩, ⟨2 + i, 1, "WITNESSED_BY", none⟩]) }

/-- The step `collect(DISTINCT _)` folds with (the fold inside `firstDedup`). -/
def fdStep {α : Type} [BEq α] : List α → α → List α :=
  fun acc a => if acc.contains a then acc else acc ++ [a]

/-- The `shared_claims` id list the staged query aggregates for the isolated
    pair on `n` claims: distinct first components (claims 0 to n-2) followed
    by distinct second components (claims 1 to n-1). -/
def idsN (n : Nat) : List String :=
  (List.range (n - 1)).map cpid ++ (List.range (n - 1)).map (fun k => cpid (k + 1))

/-- The ordered-claim-pair quads the staged query produces for one person of
    the isolated pair (`P` the person, `O` the co-occurring other). -/
def quadForm (n : Nat) (P O : GNode) : List StagedQuad :=
  (List.range n).flatMap (fun i => (List.range n).flatMap (fun j =>
    if i < j then [⟨P, O, clN i, clN j⟩] else []))

/-- The unordered-pair key a staged row identifies (Python keys
    `seen_pairs` by the sorted id pair; an unordered pair is the same thing). -/
def rowKey (r : StagedRow) : Sym2 String := s(r.p.pid, r.other.pid)

def findingKey (f : StagedFinding) : Sym2 String := s(f.person1_id, f.person2_id)

/-- All threshold-qualifying unordered pairs of the staged query, without the
    LIMIT: the symmetric-deduped rows of the unlimited aggregation. -/
def qualifyingStagedRows (g : Graph) (minShared : Nat) : List StagedRow :=
  dedupStagedRows ((stagedPairRows g minShared).filter (fun r => minShared ≤ r.shared))

/-! ## Concrete witness fixtures -/

/-- One unlabeled provider with a single 20000 claim (witness fixture). -/
def millGraphW : Graph :=
  { nodes := [mkProviderNode 0 "M" none none,
              mkClaimNode 1 "CL" 20000 "Medical" (some false) none],
    edges := [⟨1, 0, "TREATED_AT", none⟩] }

/-- The single finding `detect_medical_mills` produces on `millGraphW` with
    `min_claims = 1`, `min_avg_amount = 0` (witness fixture). -/
def millFindingW : MillFinding :=
  { provider_id := "M", claim_count := 1, avg_amount := 20000,
    claim_ids := ["CL"], suspicion_score := 28 }

/-- One unlabeled attorney and body shop sharing three unlabeled Auto claims
    (witness fixture). -/
def kickbackGraphW : Graph :=
  { nodes := [mkAttorneyNode 0 "AT" none none, mkBodyShopNode 1 "BS" none none,
              mkClaimNode 2 "K0" 10000 "Auto" (some false) none,
              mkClaimNode 3 "K1" 10000 "Auto" (some false) none,
              mkClaimNode 4 "K2" 10000 "Auto" (some false) none],
    edges := [⟨2, 0, "REPRESENTED_BY", none⟩, ⟨2, 1, "REPAIRED_AT", none⟩,
              ⟨3, 0, "REPRESENTED_BY", none⟩, ⟨3, 1, "REPAIRED_AT", none⟩,
              ⟨4, 0, "REPRESENTED_BY", none⟩, ⟨4, 1, "REPAIRED_AT", none⟩] }

/-- The single finding `detect_bodyshop_kickbacks` produces on
    `kickbackGraphW` with `min_shared_claims = 3` (witness fixture). -/
def kickbackFindingW : KickbackFinding :=
  { attorney_id := "AT", bodyshop_id := "BS", shared_claims := 3,
    claim_ids := ["K0", "K1", "K2"], suspicion_score := 45 }

/-- A labeled-fraud provider node (witness fixture). -/
def fraudNodeW : GNode := mkProviderNode 0 "FM" (some true) (some "Medical Mill")

def fraudGraphW : Graph := ⟨[fraudNodeW], []⟩

/-! # Claim theorems -/

/-! ## C2: tier/threshold ordering -/

/-- C2, counterexample: the claim includes the staged archetype in the strict
    ordering `tier1 < default_threshold`, and asserts in particular that the
    staged tier-1 count of 2 is strictly below the staged default
    `min_shared_claims = 2`; on the code the staged tier-1 builder creates
    exactly 2 shared claims and the default threshold is 2, so the strict
    ordering fails for this archetype of the generator. -/
theorem C2_tier_ordering_counterexample :
    stagedArch ∈ allArchetypes ∧ ¬ strictTierOrdering stagedArch := by decide

/-- C2, amended: the ordering `tier1 < default_threshold ≤ tier2 < tier3`
    holds for the medical-mill, kickback, phantom and adjuster-collusion
    archetypes; for the staged-accident archetype the tier-1 count sits
    exactly AT the default threshold (2 = 2), so only the relaxed ordering
    `tier1 ≤ default_threshold ≤ tier2 < tier3` holds there. -/
theorem C2_tier_ordering_amended :
    strictTierOrdering medicalMillArch ∧ strictTierOrdering kickbackArch ∧
    strictTierOrdering phantomArch ∧ strictTierOrdering adjusterCollusionArch ∧
    lenientTierOrdering stagedArch ∧ stagedArch.tier1.hi = stagedArch.dflt := by decide

/-! ## C3: tier-3 phantom patterns are never detected -/

/-- C3, evaluation at the failing input: generating exactly one tier-3
    implicit phantom instance (hub plus k phantoms, for each k in the
    randint(5,7) support of the builder) succeeds, yet `detect_phantom_passengers`
    at its default `min_connections = 3` returns no findings and leaves the
    graph untouched — the hub files no claims, while the detector demands
    that the connected person have filed at least `min_connections` unlabeled
    claims.  This contradicts the documentation of the generator itself that tier-3
    patterns are detected at default thresholds. -/
theorem C3_phantom_tier3_not_detected :
    (createImplicitPhantomTier3Instance 5 10000 0 phantomBaseState).2 = none ∧
    (createImplicitPhantomTier3Instance 6 10000 0 phantomBaseState).2 = none ∧
    (createImplicitPhantomTier3Instance 7 10000 0 phantomBaseState).2 = none ∧
    detectPhantoms (phantomTier3Graph 5) 3 = ([], phantomTier3Graph 5) ∧
    detectPhantoms (phantomTier3Graph 6) 3 = ([], phantomTier3Graph 6) ∧
    detectPhantoms (phantomTier3Graph 7) 3 = ([], phantomTier3Graph 7) := by decide

/-! ## C5: staged-accident pair finding -/

lemma cpid_injective : Function.Injective cpid := by
  intro a b h
  have h3 : (cpid a).data = (cpid b).data := by rw [h]
  have h2 : (List.replicate (a + 1) 'C').length = (List.replicate (b + 1) 'C').length := by
    simpa [cpid] using congrArg List.length h3
  simpa using h2

lemma firstDedup_eq_foldl {α : Type} [BEq α] (l : List α) :
    firstDedup l = l.foldl fdStep [] := rfl

lemma fdStep_foldl_mem {α : Type} [BEq α] [LawfulBEq α] (l acc : List α)
    (h : ∀ a ∈ l, a ∈ acc) : l.foldl fdStep acc = acc := by
  induction l with
  | nil => rfl
  | cons a t ih =>
      rw [List.foldl_cons]
      have hc : fdStep acc a = acc := by
        unfold fdStep
        rw [if_pos]
        simp [List.contains, List.elem_iff, h a (List.mem_cons_self a t)]
      rw [hc]
      exact ih (fun x hx => h x (List.mem_cons_of_mem a hx))

lemma fdStep_foldl_nodup {α : Type} [BEq α] [LawfulBEq α] (l : List α) :
    ∀ acc : List α, l.Nodup → (∀ a ∈ l, a ∉ acc) → l.foldl fdStep acc = acc ++ l := by
  induction l with
  | nil => intro acc _ _; simp
  | cons a t ih =>
      intro acc hn h
      rw [List.foldl_cons]
      have hc : fdStep acc a = acc ++ [a] := by
        unfold fdStep
        rw [if_neg]
        simp [List.contains, List.elem_iff, h a (List.mem_cons_self a t)]
      rw [hc, ih (acc ++ [a]) (List.nodup_cons.mp hn).2]
      · simp
      · intro x hx
        simp only [List.mem_append, List.mem_singleton]
        rintro (hxa | rfl)
        · exact h x (List.mem_cons_of_mem a hx) hxa
        · exact (List.nodup_cons.mp hn).1 hx

lemma fdStep_foldl_const {α : Type} [BEq α] [LawfulBEq α] (l acc : List α) (k : α)
    (hne : l ≠ []) (h : ∀ a ∈ l, a = k) (hk : k ∉ acc) :
    l.foldl fdStep acc = acc ++ [k] := by
  obtain ⟨a, t, rfl⟩ := List.exists_cons_of_ne_nil hne
  rw [List.foldl_cons]
  have ha : a = k := h a (List.mem_cons_self a t)
  subst ha
  have hc : fdStep acc a = acc ++ [a] := by
    unfold fdStep
    rw [if_neg]
    simp [List.contains, List.elem_iff, hk]
  rw [hc]
  apply fdStep_foldl_mem
  intro x hx
  rw [h x (List.mem_cons_of_mem a hx)]
  simp

lemma firstDedup_of_nodup {α : Type} [BEq α] [LawfulBEq α] (l : List α) (h : l.Nodup) :
    firstDedup l = l := by
  rw [firstDedup_eq_foldl, fdStep_foldl_nodup l [] h (fun a _ => List.not_mem_nil a)]
  simp

lemma fdStep_foldl_blocks {α : Type} [BEq α] [LawfulBEq α] (f : Nat → α)
    (hf : Function.Injective f) (ks : Nat → Nat) :
    ∀ (idx : List Nat) (acc : List α), idx.Nodup → (∀ i ∈ idx, f i ∉ acc) →
      (idx.flatMap (fun i => List.replicate (ks i) (f i))).foldl fdStep acc =
        acc ++ (idx.filter (fun i => !(ks i == 0))).map f := by
  intro idx
  induction idx with
  | nil => intro acc _ _; simp
  | cons i0 rest ih =>
      intro acc hn h
      rw [List.flatMap_cons, List.foldl_append]
      rcases hk : ks i0 with _ | m
      · have hb : List.foldl fdStep acc (List.replicate 0 (f i0)) = acc := rfl
        rw [hb, List.filter_cons]
        have hcond : (!(ks i0 == 0)) = false := by rw [hk]; rfl
        rw [hcond]
        simp only [Bool.false_eq_true, if_false]
        exact ih acc (List.nodup_cons.mp hn).2 (fun i hi => h i (List.mem_cons_of_mem i0 hi))
      · have hb : List.foldl fdStep acc (List.replicate (m + 1) (f i0)) = acc ++ [f i0] := by
          rw [List.replicate_succ, List.foldl_cons]
          have hc : fdStep acc (f i0) = acc ++ [f i0] := by
            unfold fdStep
            rw [if_neg]
            simp [List.contains, List.elem_iff, h i0 (List.mem_cons_self i0 rest)]
          rw [hc]
          apply fdStep_foldl_mem
          intro x hx
          rw [(List.mem_replicate.mp hx).2]
          simp
        rw [hb, ih (acc ++ [f i0]) (List.nodup_cons.mp hn).2]
        · rw [List.filter_cons]
          have hcond : (!(ks i0 == 0)) = true := by rw [hk]; rfl
          rw [hcond]
          simp
        · intro i hi
          simp only [List.mem_append, List.mem_singleton]
          rintro (hia | hfi)
          · exact h i (List.mem_cons_of_mem i0 hi) hia
          · exact (List.nodup_cons.mp hn).1 (hf hfi ▸ hi)

lemma flatMap_const_nil {α β : Type} (l : List α) :
    l.flatMap (fun _ => ([] : List β)) = [] := by
  induction l with
  | nil => rfl
  | cons a t ih => simp [ih]

lemma flatMap_singleton_eq_map {α β : Type} (l : List α) (f : α → β) :
    l.flatMap (fun a => [f a]) = l.map f := by
  induction l with
  | nil => rfl
  | cons a t ih => simp [ih]

lemma flatMap_range_if_eq {β : Type} (n i : Nat) (h : i < n) (v : List β) :
    (List.range n).flatMap (fun j => if j = i then v else []) = v := by
  induction n with
  | zero => omega
  | succ m ih =>
      rw [List.range_succ, List.flatMap_append, List.flatMap_singleton]
      rcases Nat.lt_succ_iff_lt_or_eq.mp h with h1 | h1
      · rw [ih h1]
        have hmi : ¬(m = i) := by omega
        simp [hmi]
      · subst h1
        have h0 : (List.range i).flatMap (fun j => if j = i then v else []) = [] := by
          rw [List.flatMap_congr (g := fun _ => ([] : List β))]
          · exact flatMap_const_nil _
          · intro j hj
            have : ¬(j = i) := by have := List.mem_range.mp hj; omega
            simp [this]
        rw [h0]
        simp

lemma find_clN (n i : Nat) (h : i < n) :
    (claimsN n).find? (fun c => c.nid == 2 + i) = some (clN i) := by
  unfold claimsN
  induction n with
  | zero => omega
  | succ m ih =>
      rw [List.range_succ, List.map_append, List.find?_append]
      rcases Nat.lt_succ_iff_lt_or_eq.mp h with h1 | h1
      · rw [ih h1]
        rfl
      · subst h1
        have hnone : ((List.range i).map clN).find? (fun c => c.nid == 2 + i) = none := by
          apply List.find?_eq_none.mpr
          intro c hc
          obtain ⟨j, hj, rfl⟩ := List.mem_map.mp hc
          have hj2 : j < i := List.mem_range.mp hj
          simp only [clN, mkClaimNode, beq_iff_eq]
          omega
        rw [hnone]
        rw [Option.none_or, List.map_singleton]
        simp [List.find?_cons, clN, mkClaimNode]

lemma nodeAt_pairGraphN_A (n : Nat) : nodeAt (pairGraphN n) 0 = some nodeA := rfl

lemma nodeAt_pairGraphN_B (n : Nat) : nodeAt (pairGraphN n) 1 = some nodeB := rfl

lemma nodeAt_pairGraphN_clN (n i : Nat) (h : i < n) :
    nodeAt (pairGraphN n) (2 + i) = some (clN i) := by
  have h0 : nodeAt (pairGraphN n) (2 + i) =
      ([nodeA, nodeB] ++ claimsN n).find? (fun c => c.nid == 2 + i) := rfl
  rw [h0, List.find?_append]
  have h2 : ([nodeA, nodeB] : List GNode).find? (fun c => c.nid == 2 + i) = none := by
    apply List.find?_eq_none.mpr
    intro c hc
    rcases List.mem_cons.mp hc with rfl | hc2
    · simp only [nodeA, mkClaimantNode, beq_iff_eq]; omega
    · rcases List.mem_singleton.mp hc2 with rfl
      simp only [nodeB, mkClaimantNode, beq_iff_eq]; omega
  rw [h2, Option.none_or, find_clN n i h]

lemma fwTargets_pairGraphN (n i : Nat) (h : i < n) :
    fwTargets (pairGraphN n) (clN i) = [nodeA, nodeB] := by
  unfold fwTargets
  have h0 : (pairGraphN n).edges = (List.range n).flatMap (fun j =>
      [⟨2 + j, 0, "FILED_BY", none⟩, ⟨2 + j, 1, "WITNESSED_BY", none⟩]) := rfl
  rw [h0, List.filterMap_flatMap]
  have h1 : ∀ j ∈ List.range n,
      List.filterMap (fun e =>
        if (e.rtype == "FILED_BY" || e.rtype == "WITNESSED_BY") && e.src == (clN i).nid then
          match nodeAt (pairGraphN n) e.dst with
          | some p => if hasLabel p "Person" then some p else none
          | none => none
        else none)
        [(⟨2 + j, 0, "FILED_BY", none⟩ : GEdge), ⟨2 + j, 1, "WITNESSED_BY", none⟩] =
      if j = i then [nodeA, nodeB] else [] := by
    intro j hj
    by_cases hji : j = i
    · subst hji
      rw [if_pos rfl]
      simp only [List.filterMap_cons, List.filterMap_nil]
      have hsrc : ((2 + j : Nat) == (clN j).nid) = true := by
        simp [clN, mkClaimNode]
      simp [hsrc, nodeAt_pairGraphN_A, nodeAt_pairGraphN_B, nodeA, nodeB,
        mkClaimantNode, hasLabel]
    · rw [if_neg hji]
      have hne : (2 + j : Nat) ≠ (clN i).nid := by
        simp only [clN, mkClaimNode]
        omega
      simp [hne]
  rw [List.flatMap_congr h1]
  exact flatMap_range_if_eq n i h _

lemma stagedCP_pairGraphN (n : Nat) :
    stagedCP (pairGraphN n) =
      (List.range n).flatMap (fun i => [(clN i, nodeA), (clN i, nodeB)]) := by
  unfold stagedCP
  have h0 : (pairGraphN n).edges = (List.range n).flatMap (fun j =>
      [⟨2 + j, 0, "FILED_BY", none⟩, ⟨2 + j, 1, "WITNESSED_BY", none⟩]) := rfl
  rw [h0, List.filterMap_flatMap]
  apply List.flatMap_congr
  intro i hi
  have hi2 : i < n := List.mem_range.mp hi
  simp only [List.filterMap_cons, List.filterMap_nil]
  rw [show nodeAt (pairGraphN n) (2 + i) = some (clN i) from nodeAt_pairGraphN_clN n i hi2]
  rfl

lemma dedupByNid_claimsN (n : Nat) : dedupByNid (claimsN n) = claimsN n := by
  unfold dedupByNid
  have h1 : (claimsN n).map (fun m => m.nid) = (List.range n).map (fun i => 2 + i) := by
    unfold claimsN
    rw [List.map_map]
    rfl
  rw [h1, firstDedup_of_nodup _ (List.Nodup.map (fun a b hab => by omega)
    (List.nodup_range n))]
  have h2 : ∀ i ∈ List.range n,
      ((fun k => (claimsN n).find? (fun m => m.nid == k)) ((fun i => 2 + i) i)) =
        some (clN i) := by
    intro i hi
    exact find_clN n i (List.mem_range.mp hi)
  calc ((List.range n).map (fun i => 2 + i)).filterMap
          (fun k => (claimsN n).find? (fun m => m.nid == k))
      = (List.range n).filterMap (fun i => some (clN i)) := by
        rw [List.filterMap_map]
        exact List.filterMap_congr h2
    _ = claimsN n := by
        rw [show (fun i => some (clN i)) = (fun i => (some ∘ clN) i) from rfl]
        rw [List.filterMap_eq_map]
        rfl

lemma range_ne_nil (n : Nat) (hn : 1 ≤ n) : List.range n ≠ [] := by
  intro hnil
  have := List.length_range n
  rw [hnil] at this
  simp at this
  omega

lemma stagedPersonClaims_pairGraphN (n : Nat) (hn : 1 ≤ n) :
    stagedPersonClaims (pairGraphN n) = [(nodeA, claimsN n), (nodeB, claimsN n)] := by
  unfold stagedPersonClaims groupRows
  rw [stagedCP_pairGraphN]
  have hkeys : (((List.range n).flatMap
        (fun i => [(clN i, nodeA), (clN i, nodeB)])).map (fun r => r.2.nid)) =
      (List.range n).flatMap (fun i => ([0, 1] : List Nat)) := by
    rw [List.map_flatMap]
    rfl
  rw [hkeys]
  obtain ⟨a, t, hat⟩ := List.exists_cons_of_ne_nil (range_ne_nil n hn)
  have hfd : firstDedup ((List.range n).flatMap (fun i => ([0, 1] : List Nat))) = [0, 1] := by
    rw [firstDedup_eq_foldl, hat, List.flatMap_cons, List.foldl_append]
    have h01 : List.foldl fdStep [] ([0, 1] : List Nat) = [0, 1] := rfl
    rw [h01]
    apply fdStep_foldl_mem
    intro x hx
    obtain ⟨j, hj, hx2⟩ := List.mem_flatMap.mp hx
    exact hx2
  rw [hfd]
  have hf0 : ((List.range n).flatMap
        (fun i => [(clN i, nodeA), (clN i, nodeB)])).filter (fun r => r.2.nid == 0) =
      (List.range n).map (fun i => (clN i, nodeA)) := by
    rw [List.filter_flatMap, ← flatMap_singleton_eq_map]
    rfl
  have hf1 : ((List.range n).flatMap
        (fun i => [(clN i, nodeA), (clN i, nodeB)])).filter (fun r => r.2.nid == 1) =
      (List.range n).map (fun i => (clN i, nodeB)) := by
    rw [List.filter_flatMap, ← flatMap_singleton_eq_map]
    rfl
  simp only [List.map_cons, List.map_nil]
  rw [hf0, hf1]
  rw [hat, List.map_cons, List.map_cons]
  simp only [List.filterMap_cons, List.filterMap_nil]
  have hm : ∀ P : GNode, (clN a :: List.map (fun x => x.1)
      (List.map (fun i => (clN i, P)) t)) = claimsN n := by
    intro P
    rw [List.map_map]
    have h3 : List.map ((fun x : GNode × GNode => x.1) ∘ fun i => (clN i, P)) t =
        List.map clN t := rfl
    rw [h3, ← List.map_cons clN a t, ← hat]
    rfl
  rw [hm nodeA, hm nodeB, dedupByNid_claimsN]

lemma stagedQuads_inner (n : Nat) (P O : GNode)
    (hPO : (P = nodeA ∧ O = nodeB) ∨ (P = nodeB ∧ O = nodeA)) :
    (claimsN n).flatMap (fun c1 => (claimsN n).flatMap (fun c2 =>
      if c1.nid < c2.nid then
        (fwTargets (pairGraphN n) c1).flatMap (fun o1 =>
          (fwTargets (pairGraphN n) c2).filterMap (fun o2 =>
            if o1.nid == o2.nid && !(P.pid == o1.pid) && notFraudB o1
            then some ⟨P, o1, c1, c2⟩ else none))
      else [])) = quadForm n P O := by
  unfold quadForm claimsN
  rw [List.flatMap_map]
  apply List.flatMap_congr
  intro i hi
  rw [List.flatMap_map]
  apply List.flatMap_congr
  intro j hj
  have hi2 : i < n := List.mem_range.mp hi
  have hj2 : j < n := List.mem_range.mp hj
  by_cases hij : i < j
  · rw [if_pos (show (clN i).nid < (clN j).nid from by
      simp only [clN, mkClaimNode]; omega), if_pos hij,
      fwTargets_pairGraphN n i hi2, fwTargets_pairGraphN n j hj2]
    rcases hPO with ⟨rfl, rfl⟩ | ⟨rfl, rfl⟩ <;> rfl
  · rw [if_neg (show ¬((clN i).nid < (clN j).nid) from by
      simp only [clN, mkClaimNode]; omega), if_neg hij]

lemma stagedQuads_pairGraphN (n : Nat) (hn : 2 ≤ n) :
    stagedQuads (pairGraphN n) 2 = quadForm n nodeA nodeB ++ quadForm n nodeB nodeA := by
  unfold stagedQuads
  rw [stagedPersonClaims_pairGraphN n (by omega)]
  have hl : (claimsN n).length = n := by
    unfold claimsN
    rw [List.length_map, List.length_range]
  have hb : (decide (2 ≤ (claimsN n).length)) = true := by
    rw [hl]
    exact decide_eq_true hn
  simp only [List.filter_cons, List.filter_nil, hb, if_true,
    List.flatMap_cons, List.flatMap_nil, List.append_nil]
  rw [stagedQuads_inner n nodeA nodeB (Or.inl ⟨rfl, rfl⟩),
      stagedQuads_inner n nodeB nodeA (Or.inr ⟨rfl, rfl⟩)]

lemma mem_quadForm (n : Nat) (P O : GNode) (q : StagedQuad) (h : q ∈ quadForm n P O) :
    ∃ i j, i < j ∧ i < n ∧ j < n ∧ q = ⟨P, O, clN i, clN j⟩ := by
  obtain ⟨i, hi, h2⟩ := List.mem_flatMap.mp h
  obtain ⟨j, hj, h3⟩ := List.mem_flatMap.mp h2
  by_cases hij : i < j
  · rw [if_pos hij] at h3
    exact ⟨i, j, hij, List.mem_range.mp hi, List.mem_range.mp hj, List.mem_singleton.mp h3⟩
  · rw [if_neg hij] at h3
    exact absurd h3 (List.not_mem_nil q)

lemma quadForm_ne_nil (n : Nat) (hn : 2 ≤ n) (P O : GNode) : quadForm n P O ≠ [] := by
  intro hnil
  have hmem : (⟨P, O, clN 0, clN 1⟩ : StagedQuad) ∈ quadForm n P O := by
    apply List.mem_flatMap.mpr
    refine ⟨0, List.mem_range.mpr (by omega), ?_⟩
    apply List.mem_flatMap.mpr
    refine ⟨1, List.mem_range.mpr (by omega), ?_⟩
    rw [if_pos (by omega)]
    exact List.mem_singleton.mpr rfl
  rw [hnil] at hmem
  exact List.not_mem_nil _ hmem

lemma flatMap_range_if_lt_const {β : Type} (n i : Nat) (v : β) :
    (List.range n).flatMap (fun j => if i < j then [v] else []) =
      List.replicate (n - (i + 1)) v := by
  induction n with
  | zero => simp
  | succ m ih =>
      rw [List.range_succ, List.flatMap_append, ih, List.flatMap_singleton]
      by_cases him : i < m
      · rw [if_pos him, ← List.replicate_succ']
        congr 1
        omega
      · rw [if_neg him]
        have h1 : m - (i + 1) = 0 := by omega
        have h2 : m + 1 - (i + 1) = 0 := by omega
        rw [h1, h2]
        simp

lemma flatMap_if_lt_eq_filter_map {α : Type} (l : List Nat) (i : Nat) (f : Nat → α) :
    l.flatMap (fun j => if i < j then [f j] else []) =
      (l.filter (fun j => decide (i < j))).map f := by
  induction l with
  | nil => rfl
  | cons a t ih =>
      by_cases h : i < a
      · simp [List.flatMap_cons, List.filter_cons, h, ih]
      · simp [List.flatMap_cons, List.filter_cons, h, ih]

lemma quadForm_fst_pids (n : Nat) (P O : GNode) :
    (quadForm n P O).map (fun x => x.claim1.pid) =
      (List.range n).flatMap (fun i => List.replicate (n - (i + 1)) (cpid i)) := by
  unfold quadForm
  rw [List.map_flatMap]
  apply List.flatMap_congr
  intro i hi
  rw [List.map_flatMap]
  have h1 : ∀ j ∈ List.range n,
      (List.map (fun x => x.claim1.pid) (if i < j then [(⟨P, O, clN i, clN j⟩ : StagedQuad)] else [])) =
      (if i < j then [cpid i] else []) := by
    intro j hj
    by_cases h : i < j
    · rw [if_pos h, if_pos h]
      rfl
    · rw [if_neg h, if_neg h]
      rfl
  rw [List.flatMap_congr h1, flatMap_range_if_lt_const]

lemma quadForm_snd_pids (n : Nat) (P O : GNode) :
    (quadForm n P O).map (fun x => x.claim2.pid) =
      (List.range n).flatMap (fun i =>
        ((List.range n).filter (fun j => decide (i < j))).map cpid) := by
  unfold quadForm
  rw [List.map_flatMap]
  apply List.flatMap_congr
  intro i hi
  rw [List.map_flatMap]
  have h1 : ∀ j ∈ List.range n,
      (List.map (fun x => x.claim2.pid) (if i < j then [(⟨P, O, clN i, clN j⟩ : StagedQuad)] else [])) =
      (if i < j then [cpid j] else []) := by
    intro j hj
    by_cases h : i < j
    · rw [if_pos h, if_pos h]
      rfl
    · rw [if_neg h, if_neg h]
      rfl
  rw [List.flatMap_congr h1, flatMap_if_lt_eq_filter_map]

lemma filter_range_lt (k n : Nat) :
    (List.range n).filter (fun i => decide (i < k)) = List.range (min k n) := by
  induction n with
  | zero => simp
  | succ m ih =>
      rw [List.range_succ, List.filter_append, ih]
      by_cases h : m < k
      · have hd : List.filter (fun i => decide (i < k)) [m] = [m] := by simp [h]
        have e1 : min k m = m := by omega
        have e2 : min k (m + 1) = min k m + 1 := by omega
        rw [hd, e2, List.range_succ, e1]
      · have hd : List.filter (fun i => decide (i < k)) [m] = [] := by simp [h]
        have e1 : min k (m + 1) = min k m := by omega
        rw [hd, List.append_nil, e1]

lemma fsts_pairGraphN (n : Nat) :
    firstDedup ((List.range n).flatMap (fun i => List.replicate (n - (i + 1)) (cpid i))) =
      (List.range (n - 1)).map cpid := by
  rw [firstDedup_eq_foldl,
    fdStep_foldl_blocks cpid cpid_injective (fun i => n - (i + 1)) (List.range n) []
      (List.nodup_range n) (fun i _ => List.not_mem_nil _),
    List.nil_append]
  refine congrArg (List.map cpid) ?_
  have h1 : ∀ i ∈ List.range n, ((!((n - (i + 1) : Nat) == 0)) : Bool) = decide (i < n - 1) := by
    intro i hi
    have hi2 := List.mem_range.mp hi
    by_cases h : i < n - 1
    · rw [decide_eq_true h]
      have h2 : ((n - (i + 1) : Nat) == 0) = false := by
        rw [beq_eq_false_iff_ne]
        omega
      rw [h2]
      rfl
    · rw [decide_eq_false h]
      have h2 : ((n - (i + 1) : Nat) == 0) = true := by
        rw [beq_iff_eq]
        omega
      rw [h2]
      rfl
  rw [List.filter_congr h1, filter_range_lt]
  refine congrArg List.range ?_
  omega

lemma snds_pairGraphN (n : Nat) (hn : 1 ≤ n) :
    firstDedup ((List.range n).flatMap (fun i =>
        ((List.range n).filter (fun j => decide (i < j))).map cpid)) =
      (List.range (n - 1)).map (fun k => cpid (k + 1)) := by
  have hsplit : List.range n = 0 :: (List.range (n - 1)).map Nat.succ :=
    (congrArg List.range (by omega : n = n - 1 + 1)).trans (List.range_succ_eq_map (n - 1))
  have hblock0 : ((List.range n).filter (fun j => decide ((0:Nat) < j))).map cpid =
      (List.range (n - 1)).map (fun k => cpid (k + 1)) := by
    conv_lhs => rw [hsplit]
    rw [List.filter_cons]
    have h0 : (decide ((0:Nat) < 0)) = false := rfl
    rw [h0]
    simp only [Bool.false_eq_true, if_false]
    rw [List.filter_map]
    have hall : List.filter ((fun j => decide ((0:Nat) < j)) ∘ Nat.succ)
        (List.range (n - 1)) = List.range (n - 1) :=
      List.filter_eq_self.mpr (fun a _ => decide_eq_true (Nat.succ_pos a))
    rw [hall, List.map_map]
    rfl
  have key : ∀ F : Nat → List String,
      (List.range n).flatMap F = F 0 ++ ((List.range (n - 1)).map Nat.succ).flatMap F := by
    intro F
    rw [hsplit, List.flatMap_cons]
  rw [key _, firstDedup_eq_foldl, List.foldl_append]
  have hnodup : (((List.range n).filter (fun j => decide ((0:Nat) < j))).map cpid).Nodup :=
    List.Nodup.map cpid_injective (List.Nodup.filter _ (List.nodup_range n))
  rw [fdStep_foldl_nodup _ [] hnodup (fun a _ => List.not_mem_nil _), List.nil_append]
  rw [fdStep_foldl_mem]
  · exact hblock0
  · intro x hx
    rw [hblock0]
    obtain ⟨i, hi, hx2⟩ := List.mem_flatMap.mp hx
    obtain ⟨k0, hk0, rfl⟩ := List.mem_map.mp hi
    obtain ⟨j, hj, rfl⟩ := List.mem_map.mp hx2
    have hj2 := List.mem_filter.mp hj
    have hjr : j < n := List.mem_range.mp hj2.1
    have hij : Nat.succ k0 < j := of_decide_eq_true hj2.2
    apply List.mem_map.mpr
    refine ⟨j - 1, List.mem_range.mpr (by omega), ?_⟩
    exact congrArg cpid (by omega)

lemma idsN_length (n : Nat) : (idsN n).length = 2 * (n - 1) := by
  unfold idsN
  simp only [List.length_append, List.length_map, List.length_range]
  omega

lemma quadForm_ids (n : Nat) (hn : 2 ≤ n) (P O : GNode) :
    firstDedup ((quadForm n P O).map (fun x => x.claim1.pid)) ++
      firstDedup ((quadForm n P O).map (fun x => x.claim2.pid)) = idsN n := by
  rw [quadForm_fst_pids, quadForm_snd_pids, fsts_pairGraphN, snds_pairGraphN n (by omega)]
  rfl

lemma stagedPairRows_pairGraphN (n : Nat) (hn : 2 ≤ n) :
    stagedPairRows (pairGraphN n) 2 =
      [⟨nodeA, nodeB, idsN n, 2 * (n - 1)⟩, ⟨nodeB, nodeA, idsN n, 2 * (n - 1)⟩] := by
  unfold stagedPairRows groupRows
  rw [stagedQuads_pairGraphN n hn]
  have hkA : ∀ x ∈ (quadForm n nodeA nodeB).map (fun q => (q.p.nid, q.other.nid)),
      x = ((0 : Nat), (1 : Nat)) := by
    intro x hx
    obtain ⟨q, hq, rfl⟩ := List.mem_map.mp hx
    obtain ⟨i, j, _, _, _, rfl⟩ := mem_quadForm n nodeA nodeB q hq
    rfl
  have hkB : ∀ x ∈ (quadForm n nodeB nodeA).map (fun q => (q.p.nid, q.other.nid)),
      x = ((1 : Nat), (0 : Nat)) := by
    intro x hx
    obtain ⟨q, hq, rfl⟩ := List.mem_map.mp hx
    obtain ⟨i, j, _, _, _, rfl⟩ := mem_quadForm n nodeB nodeA q hq
    rfl
  have hfd : firstDedup ((quadForm n nodeA nodeB ++ quadForm n nodeB nodeA).map
      (fun q => (q.p.nid, q.other.nid))) = [((0:Nat),(1:Nat)), ((1:Nat),(0:Nat))] := by
    rw [List.map_append, firstDedup_eq_foldl, List.foldl_append]
    rw [fdStep_foldl_const _ [] ((0:Nat),(1:Nat))
      (fun hmape => quadForm_ne_nil n hn nodeA nodeB (List.map_eq_nil_iff.mp hmape))
      hkA (List.not_mem_nil _), List.nil_append]
    rw [fdStep_foldl_const _ [((0:Nat),(1:Nat))] ((1:Nat),(0:Nat))
      (fun hmape => quadForm_ne_nil n hn nodeB nodeA (List.map_eq_nil_iff.mp hmape))
      hkB (by simp)]
    rfl
  rw [hfd]
  have hfilA : (quadForm n nodeA nodeB ++ quadForm n nodeB nodeA).filter
      (fun q => ((q.p.nid, q.other.nid) == ((0:Nat), (1:Nat)))) = quadForm n nodeA nodeB := by
    rw [List.filter_append]
    have h1 : (quadForm n nodeA nodeB).filter
        (fun q => ((q.p.nid, q.other.nid) == ((0:Nat), (1:Nat)))) = quadForm n nodeA nodeB :=
      List.filter_eq_self.mpr (by
        intro q hq
        obtain ⟨i, j, _, _, _, rfl⟩ := mem_quadForm n nodeA nodeB q hq
        rfl)
    have h2 : (quadForm n nodeB nodeA).filter
        (fun q => ((q.p.nid, q.other.nid) == ((0:Nat), (1:Nat)))) = [] :=
      List.filter_eq_nil_iff.mpr (by
        intro q hq
        obtain ⟨i, j, _, _, _, rfl⟩ := mem_quadForm n nodeB nodeA q hq
        simp [nodeA, nodeB, mkClaimantNode])
    rw [h1, h2, List.append_nil]
  have hfilB : (quadForm n nodeA nodeB ++ quadForm n nodeB nodeA).filter
      (fun q => ((q.p.nid, q.other.nid) == ((1:Nat), (0:Nat)))) = quadForm n nodeB nodeA := by
    rw [List.filter_append]
    have h1 : (quadForm n nodeA nodeB).filter
        (fun q => ((q.p.nid, q.other.nid) == ((1:Nat), (0:Nat)))) = [] :=
      List.filter_eq_nil_iff.mpr (by
        intro q hq
        obtain ⟨i, j, _, _, _, rfl⟩ := mem_quadForm n nodeA nodeB q hq
        simp [nodeA, nodeB, mkClaimantNode])
    have h2 : (quadForm n nodeB nodeA).filter
        (fun q => ((q.p.nid, q.other.nid) == ((1:Nat), (0:Nat)))) = quadForm n nodeB nodeA :=
      List.filter_eq_self.mpr (by
        intro q hq
        obtain ⟨i, j, _, _, _, rfl⟩ := mem_quadForm n nodeB nodeA q hq
        rfl)
    rw [h1, h2, List.nil_append]
  simp only [List.map_cons, List.map_nil]
  rw [hfilA, hfilB]
  obtain ⟨qa, qas, hqa⟩ := List.exists_cons_of_ne_nil (quadForm_ne_nil n hn nodeA nodeB)
  obtain ⟨qb, qbs, hqb⟩ := List.exists_cons_of_ne_nil (quadForm_ne_nil n hn nodeB nodeA)
  obtain ⟨i1, j1, _, _, _, hq1⟩ := mem_quadForm n nodeA nodeB qa
    (hqa ▸ List.mem_cons_self qa qas)
  obtain ⟨i2, j2, _, _, _, hq2⟩ := mem_quadForm n nodeB nodeA qb
    (hqb ▸ List.mem_cons_self qb qbs)
  rw [hqa, hqb]
  simp only [List.filterMap_cons, List.filterMap_nil]
  have hidsA : firstDedup (qa.claim1.pid :: List.map (fun x => x.claim1.pid) qas) ++
      firstDedup (qa.claim2.pid :: List.map (fun x => x.claim2.pid) qas) = idsN n := by
    rw [← List.map_cons (fun x => x.claim1.pid) qa qas,
      ← List.map_cons (fun x => x.claim2.pid) qa qas, ← hqa]
    exact quadForm_ids n hn nodeA nodeB
  have hidsB : firstDedup (qb.claim1.pid :: List.map (fun x => x.claim1.pid) qbs) ++
      firstDedup (qb.claim2.pid :: List.map (fun x => x.claim2.pid) qbs) = idsN n := by
    rw [← List.map_cons (fun x => x.claim1.pid) qb qbs,
      ← List.map_cons (fun x => x.claim2.pid) qb qbs, ← hqb]
    exact quadForm_ids n hn nodeB nodeA
  rw [hidsA, hidsB, idsN_length, hq1, hq2]

lemma stagedLimitedRows_pairGraphN (n : Nat) (hn : 2 ≤ n) :
    stagedLimitedRows (pairGraphN n) 2 =
      [⟨nodeA, nodeB, idsN n, 2 * (n - 1)⟩, ⟨nodeB, nodeA, idsN n, 2 * (n - 1)⟩] := by
  unfold stagedLimitedRows
  rw [stagedPairRows_pairGraphN n hn]
  have hb : (decide (2 ≤ 2 * (n - 1))) = true := decide_eq_true (by omega)
  simp only [List.filter_cons, List.filter_nil, hb, if_true]
  have hle : (decide (2 * (n - 1) ≤ 2 * (n - 1))) = true := decide_eq_true (le_refl _)
  simp only [sortByB, List.foldr_cons, List.foldr_nil, insertByB, hle, if_true]
  exact List.take_of_length_le (by simp)

lemma dedupStagedRows_pairGraphN (n : Nat) :
    dedupStagedRows [⟨nodeA, nodeB, idsN n, 2 * (n - 1)⟩,
        ⟨nodeB, nodeA, idsN n, 2 * (n - 1)⟩] =
      [⟨nodeA, nodeB, idsN n, 2 * (n - 1)⟩] := rfl

lemma detectStagedFindings_pairGraphN (n : Nat) (hn : 2 ≤ n) :
    detectStagedFindings (pairGraphN n) 2 =
      [{ person1_id := "A", person2_id := "B", shared_claims := 2 * (n - 1),
         claim_ids := firstDedup (idsN n),
         suspicion_score := scoreStaged (2 * (n - 1)) }] := by
  unfold detectStagedFindings
  rw [stagedLimitedRows_pairGraphN n hn, dedupStagedRows_pairGraphN n]
  rfl

lemma detectStaged_fst (g : Graph) (ms : Nat) :
    (detectStaged g ms).1 = detectStagedFindings g ms := rfl

/-- C5, counterexample: two non-fraud persons co-occurring on exactly 3
    common unlabeled Auto claims yield one finding whose `shared_claims`
    field is 4 (not 3) and whose `suspicion_score` is 100 (not
    `min(100, 3*25) = 75`): the query concatenates the distinct first and
    second components of the ordered claim pairs, which has size
    `2*(n-1)`, not `n`. -/
theorem C5_staged_pair_counterexample :
    ((detectStaged (twoPersonGraph 3) 2).1).map
      (fun f => (f.person1_id, f.person2_id, f.shared_claims, f.suspicion_score)) =
    [("A", "B", 4, 100)] := by decide

/-- C5, amended: for every n with 2 ≤ n, the isolated pair of distinct
    non-fraud Persons co-occurring on exactly n common unlabeled Auto claims
    (the graph `pairGraphN n`) makes `detect_staged_accidents` at
    `min_shared_claims = 2` return exactly one finding for the unordered pair
    (the symmetric duplicate removed); its `shared_claims` field is
    `2*(n-1)` — which equals n only when n = 2 — and its score is
    `scoreStaged (2*(n-1)) = min(100, 2*(n-1)*25)`.  In particular the
    two-conspirator scenario with exactly 2 shared claims yields one finding
    with `shared_claims = 2` and `suspicion_score = 50` exactly as claimed. -/
theorem C5_staged_pair_amended :
    (∀ n : Nat, 2 ≤ n →
      ((detectStaged (pairGraphN n) 2).1).map
        (fun f => (f.person1_id, f.person2_id, f.shared_claims, f.suspicion_score)) =
      [("A", "B", 2 * (n - 1), scoreStaged (2 * (n - 1)))]) ∧
    ((detectStaged (twoPersonGraph 2) 2).1).map
      (fun f => (f.person1_id, f.person2_id, f.shared_claims, f.suspicion_score)) =
    [("A", "B", 2, 50)] := by
  constructor
  · intro n hn
    rw [detectStaged_fst, detectStagedFindings_pairGraphN n hn]
    rfl
  · decide

/-- Witness for the amended staged-pair theorem: the universal part applied
    at the concrete family member n = 5, where the single finding carries
    `shared_claims = 8` and a saturated score. -/
theorem C5_staged_pair_witness :
    ((detectStaged (pairGraphN 5) 2).1).map
      (fun f => (f.person1_id, f.person2_id, f.shared_claims, f.suspicion_score)) =
    [("A", "B", 2 * (5 - 1), scoreStaged (2 * (5 - 1)))] :=
  C5_staged_pair_amended.1 5 (by decide)

/-! ## C7: clear_database does not reset the counters -/

/-- C7, counterexample: after creating one adjuster (counter = 1) and calling
    `clear_database`, the graph is empty but `adjuster_counter` is still 1,
    not 0 — the claim that every per-category counter equals zero after
    `clear_database` fails. -/
theorem C7_counter_reset_counterexample :
    (clearDatabase (createAdjusterPool 1 initGenState)).graph.nodes = [] ∧
    (clearDatabase (createAdjusterPool 1 initGenState)).adjuster_counter = 1 := by decide

/-- C7, amended: `clear_database` deletes every node and relationship and
    nothing else — all six in-process counters (and the pools) keep their
    values; the counters are zero only at generator construction.  (In the
    app a fresh `FraudDataGenerator` is constructed before each generation
    run, which is what actually restarts id allocation from zero.) -/
theorem C7_clear_database_amended (s : GenState) :
    (clearDatabase s).graph = Graph.empty ∧
    (clearDatabase s).claim_counter = s.claim_counter ∧
    (clearDatabase s).person_counter = s.person_counter ∧
    (clearDatabase s).provider_counter = s.provider_counter ∧
    (clearDatabase s).attorney_counter = s.attorney_counter ∧
    (clearDatabase s).bodyshop_counter = s.bodyshop_counter ∧
    (clearDatabase s).adjuster_counter = s.adjuster_counter ∧
    (clearDatabase s).adjuster_pool = s.adjuster_pool ∧
    (clearDatabase s).medical_provider_pool = s.medical_provider_pool ∧
    initGenState.claim_counter = 0 ∧ initGenState.person_counter = 0 ∧
    initGenState.provider_counter = 0 ∧ initGenState.attorney_counter = 0 ∧
    initGenState.bodyshop_counter = 0 ∧ initGenState.adjuster_counter = 0 := by
  refine ⟨rfl, rfl, rfl, rfl, rfl, rfl, rfl, rfl, rfl, rfl, rfl, rfl, rfl, rfl, rfl⟩

/-! ## C9: legacy 40/40/20 redistribution -/

/-- C9, counterexample: for a requested count of 1 the legacy split gives
    tier3 = 0 (not at least 1) and the tier counts sum to 2, not to the
    requested count. -/
theorem C9_legacy_split_counterexample :
    (legacyTierSplit 1).2.2 = 0 ∧
    (legacyTierSplit 1).1 + (legacyTierSplit 1).2.1 + (legacyTierSplit 1).2.2 = 2 := by decide

/-- C9, amended: for count > 0 the legacy entry point gives tier1 and tier2
    each `max(1, floor(0.4*count))` (hence at least 1 each); tier3 receives
    the remainder clamped at 0.  For count at least 3 the remainder is at
    least 1 and the three tiers sum to the requested count; for count 1 or 2
    tier3 is 0 and the tiers sum to 2 (overshooting a count of 1). -/
theorem C9_legacy_split_amended (c : Nat) (hc : 0 < c) :
    1 ≤ (legacyTierSplit c).1 ∧ 1 ≤ (legacyTierSplit c).2.1 ∧
    (legacyTierSplit c).1 = max 1 (2 * c / 5) ∧
    (legacyTierSplit c).2.1 = (legacyTierSplit c).1 ∧
    (3 ≤ c → 1 ≤ (legacyTierSplit c).2.2 ∧
      (legacyTierSplit c).1 + (legacyTierSplit c).2.1 + (legacyTierSplit c).2.2 = c) ∧
    (c < 3 → (legacyTierSplit c).2.2 = 0 ∧
      (legacyTierSplit c).1 + (legacyTierSplit c).2.1 + (legacyTierSplit c).2.2 = 2) := by
  simp only [legacyTierSplit, if_pos hc]
  refine ⟨?_, ?_, ?_, ?_, fun h3 => ?_, fun h3 => ?_⟩ <;>
    simp only [Nat.max_def] <;> split_ifs <;> omega

/-- C9, witness: the amended statement instantiated at count 5
    (tiers 2/2/1, summing to 5). -/
theorem C9_legacy_split_witness :
    1 ≤ (legacyTierSplit 5).1 ∧ 1 ≤ (legacyTierSplit 5).2.1 ∧
    (legacyTierSplit 5).1 = max 1 (2 * 5 / 5) ∧
    (legacyTierSplit 5).2.1 = (legacyTierSplit 5).1 ∧
    (3 ≤ 5 → 1 ≤ (legacyTierSplit 5).2.2 ∧
      (legacyTierSplit 5).1 + (legacyTierSplit 5).2.1 + (legacyTierSplit 5).2.2 = 5) ∧
    (5 < 3 → (legacyTierSplit 5).2.2 = 0 ∧
      (legacyTierSplit 5).1 + (legacyTierSplit 5).2.1 + (legacyTierSplit 5).2.2 = 2) :=
  C9_legacy_split_amended 5 (by decide)

/-! ## C4: idempotent clearing -/

lemma clearPrev_nodes (g : Graph) :
    (clearPreviousDetections g).2.nodes =
      (g.nodes.map (fun n => if n.suspicious == some true then
          { n with suspicious := none, suspicion_type := none, suspicion_score := none }
        else n)).map
        (fun n => if !(n.degree_centrality == none) then
          { n with degree_centrality := none } else n) := rfl

lemma clearPrev_edges (g : Graph) :
    (clearPreviousDetections g).2.edges =
      g.edges.filter (fun e => !(e.rtype == "SUSPICIOUS_RELATIONSHIP")) := rfl

/-- After one clear, no node is flagged, no node carries centrality, and no
    suspicious relationship remains. -/
lemma clear_result_fields (g : Graph) :
    (∀ n ∈ (clearPreviousDetections g).2.nodes,
      n.suspicious ≠ some true ∧ n.degree_centrality = none) ∧
    (∀ e ∈ (clearPreviousDetections g).2.edges,
      e.rtype ≠ "SUSPICIOUS_RELATIONSHIP") := by
  constructor
  · intro n hn
    rw [clearPrev_nodes] at hn
    obtain ⟨m, hm, rfl⟩ := List.mem_map.mp hn
    obtain ⟨m0, _, rfl⟩ := List.mem_map.mp hm
    cases h1 : (m0.suspicious == some true) <;>
      cases h2 : (!((if m0.suspicious == some true then
          { m0 with suspicious := none, suspicion_type := none, suspicion_score := none }
        else m0).degree_centrality == none)) <;>
      simp_all
  · intro e he
    rw [clearPrev_edges] at he
    have := List.of_mem_filter he
    intro hcontra
    simp [hcontra] at this

lemma filter_nil_of_false {α : Type} (p : α → Bool) (l : List α)
    (h : ∀ a ∈ l, p a = false) : l.filter p = [] := by
  induction l with
  | nil => rfl
  | cons a t ih =>
      rw [List.filter_cons, h a (by simp)]
      exact ih (fun b hb => h b (by simp [hb]))

lemma map_self_of_fix {α : Type} (f : α → α) (l : List α)
    (h : ∀ a ∈ l, f a = a) : l.map f = l := by
  induction l with
  | nil => rfl
  | cons a t ih =>
      rw [List.map_cons, h a (by simp), ih (fun b hb => h b (by simp [hb]))]

/-- Clearing a graph with no flags, no centrality and no suspicious
    relationships reports zero counts and returns the graph unchanged. -/
lemma clear_of_clean (g : Graph)
    (hn : ∀ n ∈ g.nodes, n.suspicious ≠ some true ∧ n.degree_centrality = none)
    (he : ∀ e ∈ g.edges, e.rtype ≠ "SUSPICIOUS_RELATIONSHIP") :
    clearPreviousDetections g = (⟨0, 0, 0⟩, g) := by
  obtain ⟨ns, es⟩ := g
  have h1 : ∀ n ∈ ns, (n.suspicious == some true) = false := by
    intro n hmem
    exact beq_eq_false_iff_ne.mpr (hn n hmem).1
  have h2 : ∀ n ∈ ns, (!(n.degree_centrality == none)) = false := by
    intro n hmem
    simp [(hn n hmem).2]
  have h3 : ∀ e ∈ es, (e.rtype == "SUSPICIOUS_RELATIONSHIP") = false := by
    intro e hmem
    exact beq_eq_false_iff_ne.mpr (he e hmem)
  have e1 : ns.map (fun n => if n.suspicious == some true then
      { n with suspicious := none, suspicion_type := none, suspicion_score := none }
    else n) = ns :=
    map_self_of_fix _ _ (fun n hmem => by rw [h1 n hmem]; rfl)
  simp only [clearPreviousDetections, condMap, e1]
  have e2 : ns.map (fun n => if !(n.degree_centrality == none) then
      { n with degree_centrality := none } else n) = ns :=
    map_self_of_fix _ _ (fun n hmem => by rw [h2 n hmem]; rfl)
  rw [e2, filter_nil_of_false _ _ h1, filter_nil_of_false _ _ h2,
      filter_nil_of_false _ _ h3]
  have e3 : es.filter (fun e => !(e.rtype == "SUSPICIOUS_RELATIONSHIP")) = es :=
    List.filter_eq_self.mpr (fun e hmem => by rw [h3 e hmem]; rfl)
  rw [e3]
  rfl

/-- C4: clearing twice yields zero affected counts on the second call, for
    every graph; clearing a freshly generated (never-detected) graph yields
    zero counts and leaves the graph unchanged (and raises nothing — the
    operation is total).  The `FreshlyGenerated` premise is exactly what the
    generator produces: every CREATE constructor leaves the suspicion fields
    and centrality unset, and SUSPICIOUS_RELATIONSHIP is not among the
    relationship types the generator creates. -/
theorem C4_idempotent_clearing :
    (∀ g : Graph,
      (clearPreviousDetections (clearPreviousDetections g).2).1 = ⟨0, 0, 0⟩) ∧
    (∀ g : Graph, FreshlyGenerated g → clearPreviousDetections g = (⟨0, 0, 0⟩, g)) ∧
    (∀ nid pid amount ctype isf ft, cleanNode (mkClaimNode nid pid amount ctype isf ft)) ∧
    (∀ nid pid isf ft, cleanNode (mkClaimantNode nid pid isf ft)) ∧
    (∀ nid pid, cleanNode (mkWitnessNode nid pid)) ∧
    (∀ nid pid isf ft, cleanNode (mkProviderNode nid pid isf ft)) ∧
    (∀ nid pid isf ft, cleanNode (mkAttorneyNode nid pid isf ft)) ∧
    (∀ nid pid isf ft, cleanNode (mkBodyShopNode nid pid isf ft)) ∧
    (∀ nid pid, cleanNode (mkAdjusterNode nid pid)) ∧
    "SUSPICIOUS_RELATIONSHIP" ∉ generatorEdgeTypes := by
  refine ⟨?_, ?_, ?_, ?_, ?_, ?_, ?_, ?_, ?_, by decide⟩
  · intro g
    have h := clear_result_fields g
    rw [clear_of_clean _ h.1 h.2]
  · intro g hf
    refine clear_of_clean g ?_ ?_
    · intro n hmem
      have hc := hf.1 n hmem
      exact ⟨by rw [hc.1]; exact Option.noConfusion, hc.2.2.2⟩
    · intro e hmem
      have ht := hf.2 e hmem
      intro hcontra
      rw [hcontra] at ht
      exact absurd ht (by decide)
  all_goals intros; exact ⟨rfl, rfl, rfl, rfl⟩

/-- C4, witness: the double-clear count is zero on a concrete graph holding a
    labeled-fraud provider, and clearing the concrete freshly generated
    mill fixture returns zero counts and the identical graph. -/
theorem C4_idempotent_clearing_witness :
    (clearPreviousDetections (clearPreviousDetections fraudGraphW).2).1 = ⟨0, 0, 0⟩ ∧
    clearPreviousDetections millGraphW = (⟨0, 0, 0⟩, millGraphW) :=
  ⟨C4_idempotent_clearing.1 fraudGraphW,
   C4_idempotent_clearing.2.1 millGraphW (by decide)⟩


/-! ## C1: ground-truth immutability -/

lemma condMap_get_fraud (p : GNode → Bool) (f : GNode → GNode)
    (hp : ∀ m, m.is_fraud = some true → p m = false) (g : Graph) (i : Nat) (n : GNode)
    (h : g.nodes[i]? = some n) (hf : n.is_fraud = some true) :
    (condMap p f g).nodes[i]? = some n := by
  simp [condMap, List.getElem?_map, h, hp n hf]

lemma nodes_eq_get (g1 g2 : Graph) (i : Nat) (n : GNode) (h : g1.nodes = g2.nodes)
    (h2 : g2.nodes[i]? = some n) : g1.nodes[i]? = some n := by rw [h]; exact h2

lemma foldl_graph_fraud {α : Type} (step : Graph → α → Graph)
    (hstep : ∀ (g : Graph) (a : α) (i : Nat) (n : GNode),
      g.nodes[i]? = some n → n.is_fraud = some true → (step g a).nodes[i]? = some n)
    (l : List α) :
    ∀ (g : Graph) (i : Nat) (n : GNode), g.nodes[i]? = some n → n.is_fraud = some true →
      (l.foldl step g).nodes[i]? = some n := by
  induction l with
  | nil => intro g i n h _; exact h
  | cons a t ih =>
      intro g i n h hf
      exact ih (step g a) i n (hstep g a i n h hf) hf

lemma foldl_nodes_eq {α : Type} (step : Graph → α → Graph)
    (hstep : ∀ (g : Graph) (a : α), (step g a).nodes = g.nodes) (l : List α) :
    ∀ g : Graph, (l.foldl step g).nodes = g.nodes := by
  induction l with
  | nil => intro g; rfl
  | cons a t ih => intro g; rw [List.foldl_cons, ih (step g a), hstep g a]

lemma mergeSuspEdge_nodes (g : Graph) (a b : Nat) (sc : Nat) :
    (mergeSuspEdge g a b sc).nodes = g.nodes := by
  simp only [mergeSuspEdge]
  split <;> rfl

lemma doubleMergeFold_nodes (as2 bs : List GNode) (sc : Nat) (g : Graph) :
    (as2.foldl (fun gacc a =>
      bs.foldl (fun gacc2 b => mergeSuspEdge gacc2 a.nid b.nid sc) gacc) g).nodes = g.nodes :=
  foldl_nodes_eq _ (fun g2 a => foldl_nodes_eq _
    (fun g3 b => mergeSuspEdge_nodes g3 a.nid b.nid sc) bs g2) as2 g

lemma applyMillFlag_fraud (g : Graph) (f : MillFinding) (i : Nat) (n : GNode)
    (h : g.nodes[i]? = some n) (hf : n.is_fraud = some true) :
    (applyMillFlag g f).nodes[i]? = some n := by
  simp only [applyMillFlag]
  exact condMap_get_fraud _ _ (fun m hm => by simp [unlabeledClaimB, hm]) _ i n
    (condMap_get_fraud _ _ (fun m hm => by simp [notFraudB, hm]) g i n h hf) hf

lemma applyKickbackFlag_fraud (g : Graph) (f : KickbackFinding) (i : Nat) (n : GNode)
    (h : g.nodes[i]? = some n) (hf : n.is_fraud = some true) :
    (applyKickbackFlag g f).nodes[i]? = some n := by
  simp only [applyKickbackFlag]
  split
  · exact h
  · refine condMap_get_fraud _ _ (fun m hm => by simp [unlabeledClaimB, hm]) _ i n ?_ hf
    refine nodes_eq_get _ _ i n (doubleMergeFold_nodes _ _ _ _) ?_
    exact condMap_get_fraud _ _ (fun m hm => by simp [notFraudB, hm]) g i n h hf

lemma stagedClaims_fraud (ps : ℤ) (ids : List String) :
    ∀ (acc : Graph × List String) (i : Nat) (n : GNode),
      acc.1.nodes[i]? = some n → n.is_fraud = some true →
      ((ids.foldl (fun acc2 cid =>
        if acc2.2.contains cid then acc2
        else (condMap (fun c => unlabeledClaimB c && hasLabel c "Claim" && c.pid == cid)
          (setSusp "Staged Accident" ps) acc2.1, acc2.2 ++ [cid])) acc).1).nodes[i]? = some n := by
  induction ids with
  | nil => intro acc i n h _; exact h
  | cons a t ih =>
      intro acc i n h hf
      rw [List.foldl_cons]
      refine ih _ i n ?_ hf
      cases hc : acc.2.contains a
      · rw [if_neg (by simp [hc])]
        exact condMap_get_fraud _ _ (fun m hm => by simp [unlabeledClaimB, hm]) _ i n h hf
      · rw [if_pos (by simp [hc])]
        exact h

lemma applyStagedFlag_fraud (acc : Graph × List String) (f : StagedFinding) (i : Nat)
    (n : GNode) (h : acc.1.nodes[i]? = some n) (hf : n.is_fraud = some true) :
    ((applyStagedFlag acc f).1).nodes[i]? = some n := by
  simp only [applyStagedFlag]
  refine stagedClaims_fraud _ _ _ i n ?_ hf
  exact condMap_get_fraud _ _ (fun m hm => by simp [notFraudB, hm]) _ i n
    (condMap_get_fraud _ _ (fun m hm => by simp [notFraudB, hm]) acc.1 i n h hf) hf

lemma stagedFold_fraud (fs : List StagedFinding) :
    ∀ (acc : Graph × List String) (i : Nat) (n : GNode),
      acc.1.nodes[i]? = some n → n.is_fraud = some true →
      ((fs.foldl applyStagedFlag acc).1).nodes[i]? = some n := by
  induction fs with
  | nil => intro acc i n h _; exact h
  | cons a t ih =>
      intro acc i n h hf
      exact ih _ i n (applyStagedFlag_fraud acc a i n h hf) hf

lemma applyPhantomFlag_fraud (g : Graph) (f : PhantomFinding) (i : Nat) (n : GNode)
    (h : g.nodes[i]? = some n) (hf : n.is_fraud = some true) :
    (applyPhantomFlag g f).nodes[i]? = some n := by
  simp only [applyPhantomFlag]
  exact condMap_get_fraud _ _ (fun m hm => by simp [unlabeledClaimB, hm]) _ i n
    (condMap_get_fraud _ _ (fun m hm => by simp [notFraudB, hm]) g i n h hf) hf

lemma applyCollusionFlag_fraud (g : Graph) (f : CollusionFinding) (i : Nat) (n : GNode)
    (h : g.nodes[i]? = some n) (hf : n.is_fraud = some true) :
    (applyCollusionFlag g f).nodes[i]? = some n := by
  simp only [applyCollusionFlag]
  split
  · exact h
  · refine condMap_get_fraud _ _ (fun m hm => by simp [unlabeledClaimB, hm]) _ i n ?_ hf
    refine nodes_eq_get _ _ i n (doubleMergeFold_nodes _ _ _ _) ?_
    exact condMap_get_fraud _ _ (fun m hm => by simp [notFraudB, hm]) g i n h hf

lemma detectMedicalMills_fraud (g : Graph) (mc : Nat) (ma : ℚ) (i : Nat) (n : GNode)
    (h : g.nodes[i]? = some n) (hf : n.is_fraud = some true) :
    (detectMedicalMills g mc ma).2.nodes[i]? = some n := by
  simp only [detectMedicalMills]
  exact foldl_graph_fraud _ applyMillFlag_fraud _ g i n h hf

lemma detectKickbacks_fraud (g : Graph) (ms : Nat) (i : Nat) (n : GNode)
    (h : g.nodes[i]? = some n) (hf : n.is_fraud = some true) :
    (detectKickbacks g ms).2.nodes[i]? = some n := by
  simp only [detectKickbacks]
  exact foldl_graph_fraud _ applyKickbackFlag_fraud _ g i n h hf

lemma detectStaged_fraud (g : Graph) (ms : Nat) (i : Nat) (n : GNode)
    (h : g.nodes[i]? = some n) (hf : n.is_fraud = some true) :
    (detectStaged g ms).2.nodes[i]? = some n := by
  simp only [detectStaged]
  exact stagedFold_fraud _ (g, []) i n h hf

lemma detectPhantoms_fraud (g : Graph) (mc : Nat) (i : Nat) (n : GNode)
    (h : g.nodes[i]? = some n) (hf : n.is_fraud = some true) :
    (detectPhantoms g mc).2.nodes[i]? = some n := by
  simp only [detectPhantoms]
  exact foldl_graph_fraud _ applyPhantomFlag_fraud _ g i n h hf

lemma detectCollusion_fraud (g : Graph) (ms : Nat) (i : Nat) (n : GNode)
    (h : g.nodes[i]? = some n) (hf : n.is_fraud = some true) :
    (detectCollusion g ms).2.nodes[i]? = some n := by
  simp only [detectCollusion]
  exact foldl_graph_fraud _ applyCollusionFlag_fraud _ g i n h hf

lemma calculateNetworkMetrics_fraud (g : Graph) (i : Nat) (n : GNode)
    (h : g.nodes[i]? = some n) (hf : n.is_fraud = some true) :
    (calculateNetworkMetrics g).nodes[i]? = some n :=
  condMap_get_fraud _ _ (fun m hm => by simp [notFraudB, hm]) g i n h hf

/-- C1: ground-truth immutability.  For every node carrying `is_fraud = true`
    (of any kind — Claim, Person, MedicalProvider, Attorney, BodyShop,
    Adjuster), `run_all_detections` with ANY threshold combination never sets
    or overwrites its `suspicious`, `suspicion_type` or `suspicion_score`:
    every detector excludes such nodes in its match query and re-guards them
    in its flag-writing step, and the metrics pass guards them too.  The only
    stage that can touch such a node at all is the initial clearing step,
    which REMOVES the three fields when (and only when) the node entered the
    run already flagged `suspicious = true` — a state the system itself never
    produces on a fraud node; in every other case the three fields come back
    bit-for-bit unchanged, and no stage ever sets a fresh value on them. -/
theorem C1_ground_truth_immutability (g : Graph)
    (mc ms mst mcon madj : Nat) (i : Nat) (n : GNode)
    (h : g.nodes[i]? = some n) (hf : n.is_fraud = some true) :
    ∃ n2, (runAllDetections g mc ms mst mcon madj).2.nodes[i]? = some n2 ∧
      (n.suspicious = some true →
        n2.suspicious = none ∧ n2.suspicion_type = none ∧ n2.suspicion_score = none) ∧
      (¬ n.suspicious = some true →
        n2.suspicious = n.suspicious ∧ n2.suspicion_type = n.suspicion_type ∧
        n2.suspicion_score = n.suspicion_score) := by
  set f1 : GNode → GNode := fun m => if m.suspicious == some true then
      { m with suspicious := none, suspicion_type := none, suspicion_score := none }
    else m with hf1
  set f2 : GNode → GNode := fun m => if !(m.degree_centrality == none) then
      { m with degree_centrality := none } else m with hf2
  have hfix2 : ∀ m : GNode, (f2 m).suspicious = m.suspicious ∧
      (f2 m).suspicion_type = m.suspicion_type ∧
      (f2 m).suspicion_score = m.suspicion_score ∧ (f2 m).is_fraud = m.is_fraud := by
    intro m
    rw [hf2]
    dsimp only
    split <;> exact ⟨rfl, rfl, rfl, rfl⟩
  have h0 : (clearPreviousDetections g).2.nodes[i]? = some (f2 (f1 n)) := by
    rw [clearPrev_nodes]
    simp [List.getElem?_map, h, hf1, hf2]
  have hfr1 : (f1 n).is_fraud = some true := by
    rw [hf1]; dsimp only; split <;> simpa using hf
  have hfr2 : (f2 (f1 n)).is_fraud = some true := by rw [(hfix2 _).2.2.2]; exact hfr1
  refine ⟨f2 (f1 n), ?_, ?_, ?_⟩
  · show (runAllDetections g mc ms mst mcon madj).2.nodes[i]? = some (f2 (f1 n))
    simp only [runAllDetections]
    exact calculateNetworkMetrics_fraud _ i _
      (detectCollusion_fraud _ madj i _
        (detectPhantoms_fraud _ mcon i _
          (detectStaged_fraud _ mst i _
            (detectKickbacks_fraud _ ms i _
              (detectMedicalMills_fraud _ mc 15000 i _ h0 hfr2) hfr2) hfr2) hfr2) hfr2) hfr2
  · intro hs
    have e1 : (f1 n).suspicious = none := by
      rw [hf1]; dsimp only; rw [if_pos (by simp [hs])]
    have e2 : (f1 n).suspicion_type = none := by
      rw [hf1]; dsimp only; rw [if_pos (by simp [hs])]
    have e3 : (f1 n).suspicion_score = none := by
      rw [hf1]; dsimp only; rw [if_pos (by simp [hs])]
    exact ⟨by rw [(hfix2 _).1, e1], by rw [(hfix2 _).2.1, e2], by rw [(hfix2 _).2.2.1, e3]⟩
  · intro hs
    have h1 : f1 n = n := by
      rw [hf1]; dsimp only; rw [if_neg (by simpa using hs)]
    exact ⟨by rw [(hfix2 _).1, h1], by rw [(hfix2 _).2.1, h1], by rw [(hfix2 _).2.2.1, h1]⟩

/-- C1, witness: the theorem applied to a concrete graph holding one
    labeled-fraud medical provider, at the default thresholds. -/
theorem C1_ground_truth_immutability_witness :
    ∃ n2, (runAllDetections fraudGraphW 5 3 2 3 4).2.nodes[0]? = some n2 ∧
      (fraudNodeW.suspicious = some true →
        n2.suspicious = none ∧ n2.suspicion_type = none ∧ n2.suspicion_score = none) ∧
      (¬ fraudNodeW.suspicious = some true →
        n2.suspicious = fraudNodeW.suspicious ∧
        n2.suspicion_type = fraudNodeW.suspicion_type ∧
        n2.suspicion_score = fraudNodeW.suspicion_score) :=
  C1_ground_truth_immutability fraudGraphW 5 3 2 3 4 0 fraudNodeW rfl rfl

/-! ## C6: score bounds, monotonicity and saturation -/

lemma pyTrunc_nonneg (q : ℚ) (h : 0 ≤ q) : 0 ≤ pyTrunc q := by
  unfold pyTrunc
  rw [if_pos h]
  exact Int.floor_nonneg.mpr h

lemma scoreMill_nonneg (cc : Nat) (avg : ℚ) (h : 0 ≤ avg) : 0 ≤ scoreMill cc avg := by
  unfold scoreMill
  refine le_min (by norm_num) ?_
  have h1 : (0 : ℤ) ≤ (cc : ℤ) * 8 := by positivity
  have h2 : (0 : ℤ) ≤ pyTrunc (avg / 1000) := pyTrunc_nonneg _ (by positivity)
  omega

lemma scoreMill_le (cc : Nat) (avg : ℚ) : scoreMill cc avg ≤ 100 := min_le_left _ _

lemma linScore_bounds (k : Nat) (c : ℤ) (hc : 0 ≤ c) :
    0 ≤ min 100 ((k : ℤ) * c) ∧ min 100 ((k : ℤ) * c) ≤ 100 :=
  ⟨le_min (by norm_num) (by positivity), min_le_left _ _⟩

lemma mem_insertByB {α : Type} (le : α → α → Bool) (b : α) (l : List α) (a : α) :
    a ∈ insertByB le b l ↔ a = b ∨ a ∈ l := by
  induction l with
  | nil => simp [insertByB]
  | cons c t ih =>
      simp only [insertByB]
      split
      · simp
      · simp only [List.mem_cons, ih]
        tauto

lemma mem_sortByB {α : Type} (le : α → α → Bool) (l : List α) (a : α) :
    a ∈ sortByB le l ↔ a ∈ l := by
  induction l with
  | nil => simp [sortByB]
  | cons b t ih =>
      show a ∈ insertByB le b (sortByB le t) ↔ _
      rw [mem_insertByB, ih]
      simp

lemma millRows_claim_mem (g : Graph) (r : GNode × GNode) (h : r ∈ millRows g) :
    r.2 ∈ g.nodes := by
  unfold millRows at h
  obtain ⟨e, _, hfe⟩ := List.mem_filterMap.mp h
  split at hfe
  · split at hfe
    · rename_i c m hc hm
      split at hfe
      · obtain rfl := Option.some.inj hfe
        exact List.mem_of_find?_eq_some hc
      · exact absurd hfe (by simp)
    all_goals exact absurd hfe (by simp)
  · exact absurd hfe (by simp)

lemma millGroups_claims (g : Graph) (mc : GNode × List GNode) (h : mc ∈ millGroups g) :
    ∀ c ∈ mc.2, ∃ r ∈ millRows g, r.2 = c := by
  unfold millGroups at h
  obtain ⟨grp, hgrp, hm⟩ := List.mem_filterMap.mp h
  have hsub : ∀ x ∈ grp, x ∈ millRows g := by
    unfold groupRows at hgrp
    obtain ⟨k, _, rfl⟩ := List.mem_map.mp hgrp
    intro x hx
    exact List.mem_of_mem_filter hx
  cases grp with
  | nil => simp at hm
  | cons r rs =>
      obtain rfl := Option.some.inj hm
      intro c hc
      obtain ⟨x, hx, rfl⟩ := List.mem_map.mp hc
      exact ⟨x, hsub x hx, rfl⟩

/-- Average of the matched claim amounts is nonnegative on a graph with
    nonnegative amounts. -/
lemma millFindings_avg_nonneg (g : Graph) (mcl : Nat) (mavg : ℚ)
    (hamt : ∀ n ∈ g.nodes, 0 ≤ n.claim_amount) (t : GNode × List GNode × ℚ)
    (ht : t ∈ ((millGroups g).filter (fun mc => mcl ≤ mc.2.length)).map (fun mc =>
      (mc.1, mc.2, ((mc.2.map (fun c => c.claim_amount)).sum) / (mc.2.length : ℚ)))) :
    0 ≤ t.2.2 := by
  obtain ⟨mc, hmc, rfl⟩ := List.mem_map.mp ht
  have hmc2 : mc ∈ millGroups g := List.mem_of_mem_filter hmc
  refine div_nonneg (List.sum_nonneg ?_) (by positivity)
  intro q hq
  obtain ⟨c, hc, rfl⟩ := List.mem_map.mp hq
  obtain ⟨r, hr, rfl⟩ := millGroups_claims g mc hmc2 c hc
  exact hamt _ (millRows_claim_mem g r hr)

/-- C6: every finding of every one of the five detectors carries a
    suspicion score in `[0, 100]` (for the mill detector under the system
    invariant that claim amounts are nonnegative; the other four scores
    depend only on a count and are bounded unconditionally); each score
    formula is monotonically non-decreasing in the matched structural count
    (for the mill formula, with the average amount held fixed, since that
    score also adds a term for the average); and each formula saturates at
    exactly 100 once the count is large enough. -/
theorem C6_score_bounds_monotonicity_saturation :
    (∀ (g : Graph) (mcl : Nat) (mavg : ℚ), (∀ n ∈ g.nodes, 0 ≤ n.claim_amount) →
      ∀ f ∈ (detectMedicalMills g mcl mavg).1,
        0 ≤ f.suspicion_score ∧ f.suspicion_score ≤ 100) ∧
    (∀ (g : Graph) (t : Nat), ∀ f ∈ (detectKickbacks g t).1,
        0 ≤ f.suspicion_score ∧ f.suspicion_score ≤ 100) ∧
    (∀ (g : Graph) (t : Nat), ∀ f ∈ (detectStaged g t).1,
        0 ≤ f.suspicion_score ∧ f.suspicion_score ≤ 100) ∧
    (∀ (g : Graph) (t : Nat), ∀ f ∈ (detectPhantoms g t).1,
        0 ≤ f.suspicion_score ∧ f.suspicion_score ≤ 100) ∧
    (∀ (g : Graph) (t : Nat), ∀ f ∈ (detectCollusion g t).1,
        0 ≤ f.suspicion_score ∧ f.suspicion_score ≤ 100) ∧
    (∀ (a b : Nat) (avg : ℚ), a ≤ b → scoreMill a avg ≤ scoreMill b avg) ∧
    (∀ a b : Nat, a ≤ b → scoreKickback a ≤ scoreKickback b) ∧
    (∀ a b : Nat, a ≤ b → scoreStaged a ≤ scoreStaged b) ∧
    (∀ a b : Nat, a ≤ b → scorePhantom a ≤ scorePhantom b) ∧
    (∀ a b : Nat, a ≤ b → scoreCollusion a ≤ scoreCollusion b) ∧
    (∀ (n : Nat) (avg : ℚ), 13 ≤ n → 0 ≤ avg → scoreMill n avg = 100) ∧
    (∀ n : Nat, 7 ≤ n → scoreKickback n = 100) ∧
    (∀ n : Nat, 4 ≤ n → scoreStaged n = 100) ∧
    (∀ n : Nat, 5 ≤ n → scorePhantom n = 100) ∧
    (∀ n : Nat, 9 ≤ n → scoreCollusion n = 100) := by
  refine ⟨?_, ?_, ?_, ?_, ?_, ?_, ?_, ?_, ?_, ?_, ?_, ?_, ?_, ?_, ?_⟩
  · intro g mcl mavg hamt f hf
    show 0 ≤ f.suspicion_score ∧ f.suspicion_score ≤ 100
    have hf2 : f ∈ detectMedicalMillsFindings g mcl mavg := hf
    unfold detectMedicalMillsFindings at hf2
    obtain ⟨t, ht, rfl⟩ := List.mem_map.mp hf2
    have ht2 : t ∈ _ := (mem_sortByB _ _ t).mp ht
    have ht3 := List.mem_of_mem_filter ht2
    have havg : 0 ≤ t.2.2 := millFindings_avg_nonneg g mcl mavg hamt t ht3
    exact ⟨scoreMill_nonneg _ _ havg, scoreMill_le _ _⟩
  · intro g t f hf
    have hf2 : f ∈ detectKickbacksFindings g t := hf
    unfold detectKickbacksFindings at hf2
    obtain ⟨r, _, rfl⟩ := List.mem_map.mp hf2
    exact linScore_bounds _ 15 (by norm_num)
  · intro g t f hf
    have hf2 : f ∈ detectStagedFindings g t := hf
    unfold detectStagedFindings at hf2
    obtain ⟨r, _, rfl⟩ := List.mem_map.mp hf2
    exact linScore_bounds _ 25 (by norm_num)
  · intro g t f hf
    have hf2 : f ∈ detectPhantomFindings g t := hf
    unfold detectPhantomFindings at hf2
    obtain ⟨r, _, rfl⟩ := List.mem_map.mp hf2
    exact linScore_bounds _ 20 (by norm_num)
  · intro g t f hf
    have hf2 : f ∈ detectCollusionFindings g t := hf
    unfold detectCollusionFindings at hf2
    obtain ⟨r, _, rfl⟩ := List.mem_map.mp hf2
    exact linScore_bounds _ 12 (by norm_num)
  · intro a b avg hab
    unfold scoreMill
    refine min_le_min (le_refl _) (add_le_add_right ?_ _)
    exact mul_le_mul_of_nonneg_right (by exact_mod_cast hab) (by norm_num)
  · intro a b hab
    unfold scoreKickback
    refine min_le_min (le_refl _) ?_
    exact mul_le_mul_of_nonneg_right (by exact_mod_cast hab) (by norm_num)
  · intro a b hab
    unfold scoreStaged
    refine min_le_min (le_refl _) ?_
    exact mul_le_mul_of_nonneg_right (by exact_mod_cast hab) (by norm_num)
  · intro a b hab
    unfold scorePhantom
    refine min_le_min (le_refl _) ?_
    exact mul_le_mul_of_nonneg_right (by exact_mod_cast hab) (by norm_num)
  · intro a b hab
    unfold scoreCollusion
    refine min_le_min (le_refl _) ?_
    exact mul_le_mul_of_nonneg_right (by exact_mod_cast hab) (by norm_num)
  · intro n avg hn havg
    unfold scoreMill
    have h1 : (13 : ℤ) ≤ (n : ℤ) := by exact_mod_cast hn
    have h2 : (0 : ℤ) ≤ pyTrunc (avg / 1000) := pyTrunc_nonneg _ (by positivity)
    refine min_eq_left ?_
    omega
  · intro n hn
    unfold scoreKickback
    have h1 : (7 : ℤ) ≤ (n : ℤ) := by exact_mod_cast hn
    refine min_eq_left ?_
    omega
  · intro n hn
    unfold scoreStaged
    have h1 : (4 : ℤ) ≤ (n : ℤ) := by exact_mod_cast hn
    refine min_eq_left ?_
    omega
  · intro n hn
    unfold scorePhantom
    have h1 : (5 : ℤ) ≤ (n : ℤ) := by exact_mod_cast hn
    refine min_eq_left ?_
    omega
  · intro n hn
    unfold scoreCollusion
    have h1 : (9 : ℤ) ≤ (n : ℤ) := by exact_mod_cast hn
    refine min_eq_left ?_
    omega

/-- C6, witness: the kickback-detector bound applied to the concrete fixture
    graph and its concrete finding, plus concrete instances of the
    monotonicity and saturation components. -/
theorem C6_score_bounds_witness :
    (0 ≤ kickbackFindingW.suspicion_score ∧ kickbackFindingW.suspicion_score ≤ 100) ∧
    scoreMill 3 5000 ≤ scoreMill 6 5000 ∧ scoreKickback 7 = 100 ∧
    scoreMill 13 0 = 100 :=
  ⟨C6_score_bounds_monotonicity_saturation.2.1 kickbackGraphW 3
      kickbackFindingW (by decide),
   C6_score_bounds_monotonicity_saturation.2.2.2.2.2.1 3 6 5000 (by decide),
   C6_score_bounds_monotonicity_saturation.2.2.2.2.2.2.2.2.2.2.2.1 7 (by decide),
   C6_score_bounds_monotonicity_saturation.2.2.2.2.2.2.2.2.2.2.1 13 0 (by decide)
     (le_refl 0)⟩

/-! ## C8: pool precondition failure -/

/-- C8, counterexample: `create_medical_mill` invoked with both pools empty
    (a fresh generator, 1 ring, claim count 8 as drawn from randint(8,15))
    does NOT fail with a pool-naming error and does NOT leave the graph
    untouched: it raises the generic `random.choice` empty-sequence error,
    and by then it has already created two graph entities (the fraud
    provider and fraud attorney). -/
theorem C8_pool_precondition_counterexample :
    (createMedicalMill [⟨8, 20000, 0⟩] initGenState).2 = some emptyChoiceErrMsg ∧
    emptyChoiceErrMsg ≠ adjusterPoolErrMsg ∧
    (createMedicalMill [⟨8, 20000, 0⟩] initGenState).1.graph.nodes.length = 2 := by
  refine ⟨by decide, by decide, by decide⟩

/-- C8, amended: only `create_legitimate_claims` guards its pools — with an
    empty adjuster pool (or a nonempty adjuster pool but empty
    medical-provider pool) it fails up front with the error naming the
    missing pool and creates nothing.  The explicit fraud-ring builders
    perform no such check: `create_medical_mill` with an empty adjuster pool
    creates the fraud provider and attorney of the ring and only then fails with
    the generic empty-sequence `IndexError` from `random.choice`, which names
    no pool. -/
theorem C8_pool_precondition_amended :
    (∀ (plans : List LegitPlan) (s : GenState), s.adjuster_pool = [] →
      createLegitimateClaims plans s = (s, some adjusterPoolErrMsg)) ∧
    (∀ (plans : List LegitPlan) (s : GenState), s.adjuster_pool ≠ [] →
      s.medical_provider_pool = [] →
      createLegitimateClaims plans s = (s, some providerPoolErrMsg)) ∧
    (∀ (s : GenState) (pl : MillRingPlan) (rest : List MillRingPlan),
      s.adjuster_pool = [] → 1 ≤ pl.numClaims →
      (createMedicalMill (pl :: rest) s).2 = some emptyChoiceErrMsg ∧
      (createMedicalMill (pl :: rest) s).1.graph.nodes.length =
        s.graph.nodes.length + 2) := by
  refine ⟨?_, ?_, ?_⟩
  · intro plans s h
    unfold createLegitimateClaims
    rw [if_pos (by simp [h])]
  · intro plans s h1 h2
    unfold createLegitimateClaims
    rw [if_neg (by simp [h1]), if_pos (by simp [h2])]
  · intro s pl rest hpool hnc
    obtain ⟨k, hk⟩ : ∃ k, pl.numClaims = k + 1 := ⟨pl.numClaims - 1, by omega⟩
    simp only [createMedicalMill, createMedicalMillGo, hk, createMillClaims,
      addNode, pickE, hpool, List.isEmpty_nil, if_pos]
    simp [List.length_append]

/-- C8, witness: the amended statement applied at concrete inputs — a fresh
    generator for the adjuster-pool check and the mill builder, and a
    one-adjuster state with no provider pool for the provider check. -/
theorem C8_pool_precondition_witness :
    createLegitimateClaims [] initGenState = (initGenState, some adjusterPoolErrMsg) ∧
    createLegitimateClaims [] phantomBaseState =
      (phantomBaseState, some providerPoolErrMsg) ∧
    ((createMedicalMill [⟨8, 20000, 0⟩] initGenState).2 = some emptyChoiceErrMsg ∧
      (createMedicalMill [⟨8, 20000, 0⟩] initGenState).1.graph.nodes.length =
        initGenState.graph.nodes.length + 2) :=
  ⟨C8_pool_precondition_amended.1 [] initGenState rfl,
   C8_pool_precondition_amended.2.1 [] phantomBaseState (by decide) (by decide),
   C8_pool_precondition_amended.2.2 initGenState ⟨8, 20000, 0⟩ [] rfl (by decide)⟩

/-! ## C10: LIMIT 50 in the staged query caps the findings -/

lemma dedupStaged_foldl_len (l : List StagedRow) :
    ∀ acc : List StagedRow × List (String × String),
      ((l.foldl (fun acc2 r =>
        if seenPair acc2.2 r.p.pid r.other.pid then acc2
        else (acc2.1 ++ [r], acc2.2 ++ [(r.p.pid, r.other.pid)])) acc).1).length ≤
      acc.1.length + l.length := by
  induction l with
  | nil => intro acc; simp
  | cons r t ih =>
      intro acc
      rw [List.foldl_cons]
      cases hsp : seenPair acc.2 r.p.pid r.other.pid
      · rw [if_neg (by simp [hsp])]
        have := ih (acc.1 ++ [r], acc.2 ++ [(r.p.pid, r.other.pid)])
        simp only [List.length_append, List.length_cons, List.length_nil] at this ⊢
        omega
      · rw [if_pos (by simp [hsp])]
        have := ih acc
        simp only [List.length_cons] at this ⊢
        omega

lemma dedupStagedRows_len (l : List StagedRow) :
    (dedupStagedRows l).length ≤ l.length := by
  have := dedupStaged_foldl_len l ([], [])
  simpa [dedupStagedRows] using this

lemma detectStagedFindings_len (g : Graph) (t : Nat) :
    (detectStagedFindings g t).length ≤ 50 := by
  unfold detectStagedFindings
  rw [List.length_map]
  refine le_trans (dedupStagedRows_len _) ?_
  unfold stagedLimitedRows
  exact List.length_take_le _ _

lemma rowKey_eq_seen {r0 r : StagedRow} {seen : List (String × String)}
    (hk : rowKey r0 = rowKey r) (hmem : (r0.p.pid, r0.other.pid) ∈ seen) :
    seenPair seen r.p.pid r.other.pid = true := by
  unfold rowKey at hk
  rw [Sym2.eq_iff] at hk
  simp only [seenPair, decide_eq_true_eq]
  rcases hk with ⟨h1, h2⟩ | ⟨h1, h2⟩
  · left; rw [← h1, ← h2]; exact hmem
  · right; rw [← h1, ← h2]; exact hmem

lemma dedupStaged_nodup_aux (l : List StagedRow) :
    ∀ acc : List StagedRow × List (String × String),
      (acc.1.map rowKey).Nodup →
      (∀ r ∈ acc.1, (r.p.pid, r.other.pid) ∈ acc.2) →
      (((l.foldl (fun acc2 r =>
        if seenPair acc2.2 r.p.pid r.other.pid then acc2
        else (acc2.1 ++ [r], acc2.2 ++ [(r.p.pid, r.other.pid)])) acc).1).map rowKey).Nodup := by
  induction l with
  | nil => intro acc h1 _; exact h1
  | cons r t ih =>
      intro acc h1 h2
      rw [List.foldl_cons]
      cases hsp : seenPair acc.2 r.p.pid r.other.pid
      · rw [if_neg (by simp [hsp])]
        refine ih _ ?_ ?_
        · simp only [List.map_append, List.map_cons, List.map_nil]
          rw [List.nodup_append]
          refine ⟨h1, List.nodup_singleton _, ?_⟩
          intro k hk hk2
          simp only [List.mem_singleton] at hk2
          subst hk2
          obtain ⟨r0, hr0, hkey⟩ := List.mem_map.mp hk
          rw [rowKey_eq_seen hkey (h2 r0 hr0)] at hsp
          simp at hsp
        · intro r1 hr1
          rcases List.mem_append.mp hr1 with hl | hr
          · exact List.mem_append_left _ (h2 r1 hl)
          · simp only [List.mem_singleton] at hr
            subst hr
            exact List.mem_append_right _ (by simp)
      · rw [if_pos (by simp [hsp])]
        exact ih acc h1 h2

lemma qualifying_keys_nodup (g : Graph) (t : Nat) :
    ((qualifyingStagedRows g t).map rowKey).Nodup := by
  unfold qualifyingStagedRows dedupStagedRows
  exact dedupStaged_nodup_aux _ ([], []) (by simp) (by simp)

lemma findings_keys (g : Graph) (t : Nat) :
    (detectStagedFindings g t).map findingKey =
      (dedupStagedRows (stagedLimitedRows g t)).map rowKey := by
  unfold detectStagedFindings
  rw [List.map_map]
  exact List.map_congr_left (fun r _ => rfl)

/-- C10: `detect_staged_accidents` never returns more than 50 findings — the
    pattern query truncates to 50 rows (LIMIT 50) before the Python-side
    symmetric-pair deduplication, which only shrinks the list — and whenever
    more than 50 distinct unordered qualifying pairs exist, at least one
    qualifying pair appears in no returned finding: it is silently omitted
    from the results, and hence also from the flag-writing loop, which
    iterates exactly over the returned findings. -/
theorem C10_staged_limit (g : Graph) (t : Nat) :
    (detectStaged g t).1.length ≤ 50 ∧
    (50 < (qualifyingStagedRows g t).length →
      ∃ r ∈ qualifyingStagedRows g t,
        ∀ f ∈ (detectStaged g t).1, findingKey f ≠ rowKey r) := by
  have hFeq : (detectStaged g t).1 = detectStagedFindings g t := rfl
  rw [hFeq]
  refine ⟨detectStagedFindings_len g t, ?_⟩
  intro hq
  by_contra hcon
  push_neg at hcon
  have hsub : ∀ k ∈ (qualifyingStagedRows g t).map rowKey,
      k ∈ (detectStagedFindings g t).map findingKey := by
    intro k hk
    obtain ⟨r, hr, rfl⟩ := List.mem_map.mp hk
    obtain ⟨f, hf, hfk⟩ := hcon r hr
    exact List.mem_map.mpr ⟨f, hf, hfk⟩
  have hnodup := qualifying_keys_nodup g t
  have hcard1 : ((qualifyingStagedRows g t).map rowKey).toFinset.card =
      ((qualifyingStagedRows g t).map rowKey).length := List.toFinset_card_of_nodup hnodup
  have hcard2 : ((qualifyingStagedRows g t).map rowKey).toFinset ⊆
      ((detectStagedFindings g t).map findingKey).toFinset := by
    intro k hk
    rw [List.mem_toFinset] at hk ⊢
    exact hsub k hk
  have hcard3 := Finset.card_le_card hcard2
  have hcard4 := ((detectStagedFindings g t).map findingKey).toFinset_card_le
  have hlen1 := detectStagedFindings_len g t
  rw [List.length_map] at hcard1
  rw [List.length_map] at hcard4
  omega

set_option maxRecDepth 40000 in
set_option maxHeartbeats 4000000 in
/-- C10, witness: on the concrete graph with 55 qualifying conspirator
    pairs, the result list is capped at 50 findings and some qualifying pair
    is omitted. -/
theorem C10_staged_limit_witness :
    (detectStaged bigStagedGraph 2).1.length ≤ 50 ∧
    (∃ r ∈ qualifyingStagedRows bigStagedGraph 2,
      ∀ f ∈ (detectStaged bigStagedGraph 2).1, findingKey f ≠ rowKey r) :=
  ⟨(C10_staged_limit bigStagedGraph 2).1,
   (C10_staged_limit bigStagedGraph 2).2 (by decide)⟩
